import Mathlib

/-!
Verification of the Convergent trove-manager program.

This file shallowly embeds the state and the operations of the program
(`programs/trove-manager/src`) in Lean.  Machine integers (`u64`, `u128`)
are modelled as `Nat`; every `checked_add` / `checked_sub` / `checked_mul`
/ `checked_div` / `try_from` followed by `unwrap()` in the source (a panic
on failure, which aborts the transaction) is modelled by an explicit
`Except`-valued checked operation, so an operation either returns its new
state or fails with an error and no state.  Program errors raised through
`require!` keep their identity (`OnlyOneTrove`, `LiquidateZeroDebt`, ...);
arithmetic panics and `assert!` failures are collapsed into one `overflow`
error, since no claim distinguishes among them.
-/

namespace Convergent

/-- Size bound of a `u64` value: `2 ^ 64`. -/
def U64L : Nat := 18446744073709551616

/-- Size bound of a `u128` value: `2 ^ 128`. -/
def U128L : Nat := 340282366920938463463374607431768211456

/-- The `u64::MAX` sentinel returned by `compute_cr` when debt is zero. -/
def U64MAX : Nat := 18446744073709551615

/-- Errors of the embedded program.  `overflow` stands for any arithmetic
panic (`checked_*` + `unwrap`, `try_from` + `unwrap`, failed `assert!`),
the other constructors are the program's own `require!` error codes. -/
inductive PErr where
  | overflow
  | onlyOneTrove
  | troveIsNotActive
  | liquidateZeroDebt
  | nicrZero
  deriving Repr, DecidableEq

/-- Checked `u64` addition: `a.checked_add(b).unwrap()`. -/
def chAdd64 (a b : Nat) : Except PErr Nat :=
  if a + b < U64L then pure (a + b) else .error .overflow

/-- Checked `u128` addition: `a.checked_add(b).unwrap()` at 128 bits. -/
def chAdd128 (a b : Nat) : Except PErr Nat :=
  if a + b < U128L then pure (a + b) else .error .overflow

/-- Checked subtraction (width-independent): `a.checked_sub(b).unwrap()`. -/
def chSub (a b : Nat) : Except PErr Nat :=
  if b ≤ a then pure (a - b) else .error .overflow

/-- Checked `u128` multiplication: `a.checked_mul(b).unwrap()` at 128 bits. -/
def chMul128 (a b : Nat) : Except PErr Nat :=
  if a * b < U128L then pure (a * b) else .error .overflow

/-- Checked division: `a.checked_div(b).unwrap()` (fails on a zero divisor). -/
def chDiv (a b : Nat) : Except PErr Nat :=
  if b = 0 then .error .overflow else pure (a / b)

/-- `u64::try_from(a).unwrap()` on a `u128` intermediate value. -/
def tryU64 (a : Nat) : Except PErr Nat :=
  if a < U64L then pure a else .error .overflow

section ExceptLemmas

variable {α β : Type}

theorem bind_eq_ok {x : Except PErr α} {f : α → Except PErr β} {b : β} :
    x >>= f = .ok b ↔ ∃ a, x = .ok a ∧ f a = .ok b := by
  cases x <;> simp [Bind.bind, Except.bind]

theorem pure_eq_ok {a b : α} : (pure a : Except PErr α) = .ok b ↔ b = a := by
  constructor
  · intro h
    cases h
    rfl
  · intro h
    cases h
    rfl

theorem chAdd64_eq_ok {a b c : Nat} :
    chAdd64 a b = .ok c ↔ c = a + b ∧ a + b < U64L := by
  unfold chAdd64
  split <;> simp [pure_eq_ok] <;> omega

theorem chAdd128_eq_ok {a b c : Nat} :
    chAdd128 a b = .ok c ↔ c = a + b ∧ a + b < U128L := by
  unfold chAdd128
  split <;> simp [pure_eq_ok] <;> omega

theorem chSub_eq_ok {a b c : Nat} :
    chSub a b = .ok c ↔ c = a - b ∧ b ≤ a := by
  unfold chSub
  split <;> simp [pure_eq_ok] <;> omega

theorem chMul128_eq_ok {a b c : Nat} :
    chMul128 a b = .ok c ↔ c = a * b ∧ a * b < U128L := by
  unfold chMul128
  split <;> simp [pure_eq_ok] <;> omega

theorem chDiv_eq_ok {a b c : Nat} :
    chDiv a b = .ok c ↔ c = a / b ∧ b ≠ 0 := by
  unfold chDiv
  split <;> simp [pure_eq_ok] <;> omega

theorem tryU64_eq_ok {a c : Nat} :
    tryU64 a = .ok c ↔ c = a ∧ a < U64L := by
  unfold tryU64
  split <;> simp [pure_eq_ok] <;> omega

end ExceptLemmas

/-- Trove lifecycle states (`TroveStatus` in `state/trove.rs`). -/
inductive TroveStatus where
  | nonExistent
  | active
  | closedByOwner
  | closedByLiquidation
  | closedByRedemption
  deriving Repr, DecidableEq

/-- Per-borrower position (`Trove` in `state/trove.rs`).  The account keys
(`pool_state`, `creator`, `prev`, `next`) are identity/linked-list plumbing
and are not part of the arithmetic state modelled here. -/
structure Trove where
  debt : Nat
  coll : Nat
  stake : Nat
  snapshot_coll_reward : Nat
  snapshot_debt_reward : Nat
  surplus_balance : Nat
  status : TroveStatus
  deriving Repr, DecidableEq

/-- Global market ledger (`PoolState` in `state/pool_state.rs`), restricted
to the fields read or written by the operations modelled in this file
(account keys, bumps and the fee-decay clock fields are omitted). -/
structure PoolState where
  mcr : Nat
  ccr : Nat
  min_net_debt : Nat
  gas_compensation : Nat
  coll_gas_comp_percent_divisor : Nat
  total_stakes : Nat
  total_stakes_snapshot : Nat
  total_coll_snapshot : Nat
  l_coll : Nat
  l_usv_debt : Nat
  last_coll_error_redistribution : Nat
  last_usv_debt_error_redistribution : Nat
  total_surplus : Nat
  liquidated_coll : Nat
  closed_debt : Nat
  active_coll : Nat
  active_debt : Nat
  trove_size : Nat
  deriving Repr, DecidableEq

/-- `DECIMAL_PRECISION` (constants.rs): fixed-point scale, 1e9. -/
def DECIMAL_PRECISION : Nat := 1000000000

/-- `ONE_HUNDERED_PERCENT` (constants.rs): 1e9. -/
def ONE_HUNDERED_PERCENT : Nat := 1000000000

/-- `NICR_PRECISION` (constants.rs): 1e11. -/
def NICR_PRECISION : Nat := 100000000000

/-- `SCALE_FACTOR` (constants.rs): 1e5.  Minimum-scale threshold of the
Stability Pool product `P`. -/
def SCALE_FACTOR : Nat := 100000

/-- `compute_cr` (math.rs): `coll * price / debt` widened to `u128`, with
`u64::MAX` as the infinite-ratio sentinel when `debt == 0`.  The source
returns `Option` and every call site unwraps, so failure is a panic. -/
def compute_cr (coll debt price : Nat) : Except PErr Nat :=
  if 0 < debt then tryU64 (coll * price / debt) else pure U64MAX

/-- `compute_nominal_cr` (math.rs): price-independent ratio at 1e11 scale. -/
def compute_nominal_cr (coll debt : Nat) : Except PErr Nat :=
  if 0 < debt then tryU64 (coll * NICR_PRECISION / debt) else pure U64MAX

/-- `Trove::get_pending_coll_reward` (state/trove.rs): pending
redistribution collateral, `stake * (l_coll - snapshot) / 1e9`. -/
def get_pending_coll_reward (t : Trove) (p : PoolState) : Except PErr Nat := do
  let reward_per_unit_staked ← chSub p.l_coll t.snapshot_coll_reward
  if reward_per_unit_staked = 0 ∨ t.status ≠ TroveStatus.active then
    pure 0
  else do
    let m ← chMul128 t.stake reward_per_unit_staked
    tryU64 (m / DECIMAL_PRECISION)

/-- `Trove::get_pending_debt_reward` (state/trove.rs): pending
redistribution debt, `stake * (l_usv_debt - snapshot) / 1e9`. -/
def get_pending_debt_reward (t : Trove) (p : PoolState) : Except PErr Nat := do
  let reward_per_unit_staked ← chSub p.l_usv_debt t.snapshot_debt_reward
  if reward_per_unit_staked = 0 ∨ t.status ≠ TroveStatus.active then
    pure 0
  else do
    let m ← chMul128 t.stake reward_per_unit_staked
    tryU64 (m / DECIMAL_PRECISION)

/-- `Trove::get_entire_debt_coll` (state/trove.rs): reward-inclusive debt
and collateral together with the pending rewards. -/
def get_entire_debt_coll (t : Trove) (p : PoolState) :
    Except PErr (Nat × Nat × Nat × Nat) := do
  let pending_usv_debt_reward ← get_pending_debt_reward t p
  let pending_coll_reward ← get_pending_coll_reward t p
  let debt ← chAdd64 t.debt pending_usv_debt_reward
  let coll ← chAdd64 t.coll pending_coll_reward
  pure (debt, coll, pending_usv_debt_reward, pending_coll_reward)

/-- `Trove::get_current_amounts` (state/trove.rs). -/
def get_current_amounts (t : Trove) (p : PoolState) : Except PErr (Nat × Nat) := do
  let pending_coll_reward ← get_pending_coll_reward t p
  let pending_debt_reward ← get_pending_debt_reward t p
  let current_coll ← chAdd64 t.coll pending_coll_reward
  let current_debt ← chAdd64 t.debt pending_debt_reward
  pure (current_coll, current_debt)

/-- `Trove::get_current_icr` (state/trove.rs): reward-inclusive ICR. -/
def get_current_icr (t : Trove) (p : PoolState) (price : Nat) : Except PErr Nat := do
  let amounts ← get_current_amounts t p
  compute_cr amounts.1 amounts.2 price

/-- `PoolState::get_entire_coll`: `active_coll + liquidated_coll`. -/
def get_entire_coll (p : PoolState) : Except PErr Nat :=
  chAdd64 p.active_coll p.liquidated_coll

/-- `PoolState::get_entire_debt`: `active_debt + closed_debt`. -/
def get_entire_debt (p : PoolState) : Except PErr Nat :=
  chAdd64 p.active_debt p.closed_debt

/-- `PoolState::get_tcr`: system collateral ratio at `price`. -/
def get_tcr (p : PoolState) (price : Nat) : Except PErr Nat := do
  let entire_coll ← get_entire_coll p
  let entire_debt ← get_entire_debt p
  compute_cr entire_coll entire_debt price

/-- `PoolState::check_recovery_mode`: `TCR < ccr`. -/
def check_recovery_mode (p : PoolState) (price : Nat) : Except PErr Bool := do
  let tcr ← get_tcr p price
  pure (decide (tcr < p.ccr))

/-- `PoolState::get_coll_gas_compensation`:
`entire_coll / coll_gas_comp_percent_divisor` (plain `u64` division, which
panics when the divisor is zero). -/
def get_coll_gas_compensation (p : PoolState) (entire_coll : Nat) : Except PErr Nat :=
  chDiv entire_coll p.coll_gas_comp_percent_divisor

/-- `PoolState::get_net_debt`: `debt - gas_compensation`. -/
def get_net_debt (p : PoolState) (debt : Nat) : Except PErr Nat :=
  chSub debt p.gas_compensation

/-- `PoolState::increase_active_debt`. -/
def increase_active_debt (p : PoolState) (amount : Nat) : Except PErr PoolState := do
  let v ← chAdd64 p.active_debt amount
  pure { p with active_debt := v }

/-- `PoolState::decrease_active_debt`. -/
def decrease_active_debt (p : PoolState) (amount : Nat) : Except PErr PoolState := do
  let v ← chSub p.active_debt amount
  pure { p with active_debt := v }

/-- `PoolState::increase_active_coll`. -/
def increase_active_coll (p : PoolState) (amount : Nat) : Except PErr PoolState := do
  let v ← chAdd64 p.active_coll amount
  pure { p with active_coll := v }

/-- `PoolState::decrease_active_coll`. -/
def decrease_active_coll (p : PoolState) (amount : Nat) : Except PErr PoolState := do
  let v ← chSub p.active_coll amount
  pure { p with active_coll := v }

/-- `PoolState::increase_liquidated_coll`. -/
def increase_liquidated_coll (p : PoolState) (amount : Nat) : Except PErr PoolState := do
  let v ← chAdd64 p.liquidated_coll amount
  pure { p with liquidated_coll := v }

/-- `PoolState::decrease_liquidated_coll`. -/
def decrease_liquidated_coll (p : PoolState) (amount : Nat) : Except PErr PoolState := do
  let v ← chSub p.liquidated_coll amount
  pure { p with liquidated_coll := v }

/-- `PoolState::increase_closed_debt`. -/
def increase_closed_debt (p : PoolState) (amount : Nat) : Except PErr PoolState := do
  let v ← chAdd64 p.closed_debt amount
  pure { p with closed_debt := v }

/-- `PoolState::decrease_closed_debt`. -/
def decrease_closed_debt (p : PoolState) (amount : Nat) : Except PErr PoolState := do
  let v ← chSub p.closed_debt amount
  pure { p with closed_debt := v }

/-- `PoolState::increase_total_surplus`. -/
def increase_total_surplus (p : PoolState) (amount : Nat) : Except PErr PoolState := do
  let v ← chAdd64 p.total_surplus amount
  pure { p with total_surplus := v }

/-- `PoolState::move_pending_trove_rewards_to_active` (state/pool_state.rs):
shifts a Trove's pending redistribution amounts from the default-pool
aggregates into the active aggregates. -/
def move_pending_trove_rewards_to_active (p : PoolState) (usv_amt coll_amt : Nat) :
    Except PErr PoolState := do
  let p ← increase_active_debt p usv_amt
  let p ← decrease_closed_debt p usv_amt
  let p ← decrease_liquidated_coll p coll_amt
  let p ← increase_active_coll p coll_amt
  pure p

/-- `PoolState::redistribute_debt_and_coll` (state/pool_state.rs): spreads a
liquidated Trove's remaining debt/collateral across all stakes, carrying
the division remainders into the next redistribution. -/
def redistribute_debt_and_coll (p : PoolState) (debt coll : Nat) :
    Except PErr PoolState := do
  if debt = 0 then
    pure p
  else do
    let coll_numerator ← chAdd128 (← chMul128 coll DECIMAL_PRECISION)
      p.last_coll_error_redistribution
    let usv_debt_numerator ← chAdd128 (← chMul128 debt DECIMAL_PRECISION)
      p.last_usv_debt_error_redistribution
    let coll_reward_per_unit_staked ← chDiv coll_numerator p.total_stakes
    let usv_debt_reward_per_unit_staked ← chDiv usv_debt_numerator p.total_stakes
    let coll_err ← chSub coll_numerator
      (← chMul128 coll_reward_per_unit_staked p.total_stakes)
    let usv_err ← chSub usv_debt_numerator
      (← chMul128 usv_debt_reward_per_unit_staked p.total_stakes)
    let l_coll ← chAdd128 p.l_coll coll_reward_per_unit_staked
    let l_usv_debt ← chAdd128 p.l_usv_debt usv_debt_reward_per_unit_staked
    let p := { p with
      last_coll_error_redistribution := coll_err
      last_usv_debt_error_redistribution := usv_err
      l_coll := l_coll
      l_usv_debt := l_usv_debt }
    let p ← decrease_active_debt p debt
    let p ← increase_closed_debt p debt
    let p ← decrease_active_coll p coll
    let p ← increase_liquidated_coll p coll
    pure p

/-- `Trove::has_pending_rewards` (state/trove.rs). -/
def has_pending_rewards (t : Trove) (p : PoolState) : Bool :=
  if t.status ≠ TroveStatus.active then false
  else decide (t.snapshot_coll_reward < p.l_coll)

/-- `Trove::require_trove_active`. -/
def require_trove_active (t : Trove) : Except PErr Unit :=
  if t.status = TroveStatus.active then pure () else .error .troveIsNotActive

/-- `Trove::update_reward_snapshot` (state/trove.rs): sets both reward
snapshots to the pool's current accumulators. -/
def update_reward_snapshot (t : Trove) (p : PoolState) : Trove :=
  { t with snapshot_coll_reward := p.l_coll, snapshot_debt_reward := p.l_usv_debt }

/-- `PoolState::apply_pending_reward` (state/pool_state.rs): lazily applies
a Trove's pending redistribution rewards, updating the Trove's balances and
snapshots and shifting the pool aggregates. -/
def apply_pending_reward (p : PoolState) (t : Trove) :
    Except PErr (PoolState × Trove) := do
  if has_pending_rewards t p then do
    let _ ← require_trove_active t
    let pending_coll_reward ← get_pending_coll_reward t p
    let pending_debt_reward ← get_pending_debt_reward t p
    let coll ← chAdd64 t.coll pending_coll_reward
    let debt ← chAdd64 t.debt pending_debt_reward
    let t := update_reward_snapshot { t with coll := coll, debt := debt } p
    let p ← move_pending_trove_rewards_to_active p pending_debt_reward
      pending_coll_reward
    pure (p, t)
  else
    pure (p, t)

/-- `PoolState::require_more_than_one_trove_in_system`. -/
def require_more_than_one_trove_in_system (p : PoolState) : Except PErr Unit :=
  if 1 < p.trove_size then pure () else .error .onlyOneTrove

/-- `Trove::close_trove` (state/trove.rs): requires more than one Trove in
the system, then marks the Trove closed and zeroes its balances and
snapshots.  The `assert!` on the closed status is the leading guard. -/
def close_trove (t : Trove) (p : PoolState) (closed_status : TroveStatus) :
    Except PErr (Trove × PoolState) := do
  if closed_status = TroveStatus.nonExistent ∨ closed_status = TroveStatus.active then
    .error .overflow
  else do
    let _ ← require_more_than_one_trove_in_system p
    pure ({ t with
      status := closed_status
      coll := 0
      debt := 0
      snapshot_coll_reward := 0
      snapshot_debt_reward := 0 }, p)

/-- `Trove::remove_stake` (state/trove.rs). -/
def remove_stake (t : Trove) (p : PoolState) : Except PErr (Trove × PoolState) := do
  let ts ← chSub p.total_stakes t.stake
  pure ({ t with stake := 0 }, { p with total_stakes := ts })

/-- `Trove::compute_new_stake` (state/trove.rs): rebases a stake through
the post-liquidation system snapshots. -/
def compute_new_stake (_t : Trove) (p : PoolState) (coll : Nat) : Except PErr Nat := do
  if p.total_coll_snapshot = 0 then
    pure coll
  else do
    if p.total_stakes_snapshot = 0 then .error .overflow
    else
      tryU64 ((← chMul128 coll p.total_stakes_snapshot) / p.total_coll_snapshot)

/-- `Trove::update_stake_and_total_stakes` (state/trove.rs). -/
def update_stake_and_total_stakes (t : Trove) (p : PoolState) :
    Except PErr (Trove × PoolState) := do
  let new_stake ← compute_new_stake t p t.coll
  let old_stake := t.stake
  let ts ← chAdd64 (← chSub p.total_stakes old_stake) new_stake
  pure ({ t with stake := new_stake }, { p with total_stakes := ts })

/-- `Trove::account_surplus` (state/trove.rs). -/
def account_surplus (t : Trove) (amount : Nat) : Except PErr Trove := do
  let v ← chAdd64 t.surplus_balance amount
  pure { t with surplus_balance := v }

/-- `Trove::remove_sorted` / `remove_sorted_redemption`, restricted to the
arithmetic state: the neighbour-pointer surgery acts on account keys that
are outside this model, and the bookkeeping effect is the `trove_size`
decrement. -/
def remove_sorted (p : PoolState) : Except PErr PoolState := do
  let n ← chSub p.trove_size 1
  pure { p with trove_size := n }

/-- `PoolState::update_system_snapshots_exclude_coll_remainder`. -/
def update_system_snapshots_exclude_coll_remainder (p : PoolState)
    (coll_remainder : Nat) : Except PErr PoolState := do
  let tc ← chAdd64 (← chSub p.active_coll coll_remainder) p.liquidated_coll
  pure { p with total_stakes_snapshot := p.total_stakes, total_coll_snapshot := tc }

/-- Stability Pool global state (`StabilityPoolState` in
`state/stability_pool_state.rs`), minus the `cvgt` mint key. -/
structure SPState where
  total_collateral : Nat
  total_usv_deposits : Nat
  p : Nat
  current_scale : Nat
  current_epoch : Nat
  last_cvgt_error : Nat
  last_coll_error_offset : Nat
  last_usv_error_offset : Nat
  deriving Repr, DecidableEq

/-- One `(epoch, scale)` accumulator record (`EpochScale` in
`state/epoch_scale.rs`). -/
structure EpochScale where
  sum : Nat
  g : Nat
  deriving Repr, DecidableEq

/-- `StabilityPoolState::increase_usv`. -/
def sp_increase_usv (sp : SPState) (amount : Nat) : Except PErr SPState := do
  let v ← chAdd64 sp.total_usv_deposits amount
  pure { sp with total_usv_deposits := v }

/-- `StabilityPoolState::decrease_usv`. -/
def sp_decrease_usv (sp : SPState) (amount : Nat) : Except PErr SPState := do
  let v ← chSub sp.total_usv_deposits amount
  pure { sp with total_usv_deposits := v }

/-- `StabilityPoolState::increase_coll`. -/
def sp_increase_coll (sp : SPState) (amount : Nat) : Except PErr SPState := do
  let v ← chAdd64 sp.total_collateral amount
  pure { sp with total_collateral := v }

/-- `StabilityPoolState::compute_cvgt_per_unit_staked`
(state/stability_pool_state.rs). -/
def compute_cvgt_per_unit_staked (sp : SPState) (cvgt_issuance : Nat) :
    Except PErr (SPState × Nat) := do
  let cvgt_numerator ← chAdd128 (← chMul128 cvgt_issuance DECIMAL_PRECISION)
    sp.last_cvgt_error
  let cvgt_per_unit_staked ← chDiv cvgt_numerator sp.total_usv_deposits
  let err ← chSub cvgt_numerator
    (← chMul128 cvgt_per_unit_staked sp.total_usv_deposits)
  pure ({ sp with last_cvgt_error := err }, cvgt_per_unit_staked)

/-- `StabilityPoolState::compute_rewards_per_unit_staked`
(state/stability_pool_state.rs): per-unit collateral gain and USV loss of
an offset, with the carried rounding errors and the "+1, favour the pool"
rule on the loss. -/
def compute_rewards_per_unit_staked (sp : SPState) (coll_to_add debt_to_offset : Nat) :
    Except PErr (SPState × Nat × Nat) := do
  let coll_numerator ← chAdd128 (← chMul128 coll_to_add DECIMAL_PRECISION)
    sp.last_coll_error_offset
  let total_usv_deposits := sp.total_usv_deposits
  if debt_to_offset ≤ total_usv_deposits then do
    let (sp, usv_loss_per_unit_staked) ←
      if debt_to_offset = total_usv_deposits then
        pure ({ sp with last_coll_error_offset := 0 }, DECIMAL_PRECISION)
      else do
        let usv_loss_numerator ← chSub (← chMul128 debt_to_offset DECIMAL_PRECISION)
          sp.last_usv_error_offset
        let usv_loss_per_unit_staked ←
          chAdd128 (← chDiv usv_loss_numerator total_usv_deposits) 1
        let err ← chSub (← chMul128 usv_loss_per_unit_staked total_usv_deposits)
          usv_loss_numerator
        let v ← tryU64 usv_loss_per_unit_staked
        pure ({ sp with last_usv_error_offset := err }, v)
    let coll_gain_per_unit_staked ← tryU64
      (← chDiv coll_numerator total_usv_deposits)
    let coll_err ← chSub coll_numerator
      (← chMul128 coll_gain_per_unit_staked total_usv_deposits)
    pure ({ sp with last_coll_error_offset := coll_err },
      coll_gain_per_unit_staked, usv_loss_per_unit_staked)
  else
    .error .overflow

/-- `StabilityPoolState::update_reward_sum_and_product`
(state/stability_pool_state.rs): updates `S` first, then the product `P`,
rolling the epoch on full depletion and the scale near underflow. -/
def update_reward_sum_and_product (sp : SPState) (es : EpochScale)
    (coll_gain_per_unit_staked usv_loss_per_unit_staked : Nat) :
    Except PErr (SPState × EpochScale) := do
  if usv_loss_per_unit_staked ≤ DECIMAL_PRECISION then do
    let new_product_factor ← chSub DECIMAL_PRECISION usv_loss_per_unit_staked
    let marginal_coll_gain ← chMul128 coll_gain_per_unit_staked sp.p
    let new_s ← chAdd128 es.sum marginal_coll_gain
    let es := { es with sum := new_s }
    let (sp, new_p) ←
      if new_product_factor = 0 then do
        let e ← chAdd128 sp.current_epoch 1
        pure ({ sp with current_epoch := e, current_scale := 0 },
          DECIMAL_PRECISION)
      else do
        if (← chDiv (← chMul128 sp.p new_product_factor) DECIMAL_PRECISION)
            < SCALE_FACTOR then do
          let s ← chAdd128 sp.current_scale 1
          let v ← chDiv (← chMul128 (← chMul128 sp.p new_product_factor)
            SCALE_FACTOR) DECIMAL_PRECISION
          pure ({ sp with current_scale := s }, v)
        else do
          let v ← chDiv (← chMul128 sp.p new_product_factor) DECIMAL_PRECISION
          pure (sp, v)
    if 0 < new_p then
      pure ({ sp with p := new_p }, es)
    else
      .error .overflow
  else
    .error .overflow

/-- `EpochScale::update_g` (state/epoch_scale.rs). -/
def update_g (es : EpochScale) (sp : SPState) (cvgt_issuance : Nat) :
    Except PErr (EpochScale × SPState) := do
  if sp.total_usv_deposits = 0 ∨ cvgt_issuance = 0 then
    pure (es, sp)
  else do
    let (sp, cvgt_per_unit_staked) ← compute_cvgt_per_unit_staked sp cvgt_issuance
    let marginal_cvgt_gain ← chMul128 cvgt_per_unit_staked sp.p
    let g ← chAdd128 es.g marginal_cvgt_gain
    pure ({ es with g := g }, sp)

/-- Per-liquidation output values (`LiquidationValues` in
`state/liquidation.rs`). -/
structure LiquidationValues where
  entire_trove_debt : Nat
  entire_trove_coll : Nat
  coll_gas_compensation : Nat
  usv_gas_compensation : Nat
  debt_to_offset : Nat
  coll_to_send_to_sp : Nat
  debt_to_redistribute : Nat
  coll_to_redistribute : Nat
  coll_surplus : Nat
  deriving Repr, DecidableEq

/-- `LiquidationValues::default()`: all fields zero. -/
def lvDefault : LiquidationValues :=
  ⟨0, 0, 0, 0, 0, 0, 0, 0, 0⟩

/-- Running totals of a liquidation call (`LiquidationTotals` in
`state/liquidation.rs`). -/
structure LiquidationTotals where
  total_coll_in_sequence : Nat
  total_debt_in_sequence : Nat
  total_coll_gas_compensation : Nat
  total_usv_gas_compensation : Nat
  total_debt_to_offset : Nat
  total_coll_to_send_to_sp : Nat
  total_debt_to_redistribute : Nat
  total_coll_to_redistribute : Nat
  total_coll_surplus : Nat
  deriving Repr, DecidableEq

/-- `LiquidationTotals::default()`. -/
def ltDefault : LiquidationTotals :=
  ⟨0, 0, 0, 0, 0, 0, 0, 0, 0⟩

/-- `LiquidationTotals::add_liquidation_values` (state/liquidation.rs). -/
def add_liquidation_values (tot : LiquidationTotals) (v : LiquidationValues) :
    Except PErr LiquidationTotals := do
  let a ← chAdd64 tot.total_coll_gas_compensation v.coll_gas_compensation
  let b ← chAdd64 tot.total_usv_gas_compensation v.usv_gas_compensation
  let c ← chAdd64 tot.total_debt_in_sequence v.entire_trove_debt
  let d ← chAdd64 tot.total_coll_in_sequence v.entire_trove_coll
  let e ← chAdd64 tot.total_debt_to_offset v.debt_to_offset
  let f ← chAdd64 tot.total_coll_to_send_to_sp v.coll_to_send_to_sp
  let g ← chAdd64 tot.total_debt_to_redistribute v.debt_to_redistribute
  let h ← chAdd64 tot.total_coll_to_redistribute v.coll_to_redistribute
  let i ← chAdd64 tot.total_coll_surplus v.coll_surplus
  pure ⟨d, c, a, b, e, f, g, h, i⟩

/-- `LiquidationValues::offset_and_redistribute` (state/liquidation.rs):
offset as much debt as the Stability Pool holds, redistribute the rest. -/
def offset_and_redistribute (v : LiquidationValues) (coll usv_in_stab_pool : Nat) :
    Except PErr LiquidationValues := do
  if 0 < usv_in_stab_pool then do
    let debt_to_offset := min v.entire_trove_debt usv_in_stab_pool
    let coll_to_send_to_sp ← tryU64
      (← chDiv (← chMul128 coll debt_to_offset) v.entire_trove_debt)
    let debt_to_redistribute ← chSub v.entire_trove_debt debt_to_offset
    let coll_to_redistribute ← chSub coll coll_to_send_to_sp
    pure { v with
      debt_to_offset := debt_to_offset
      coll_to_send_to_sp := coll_to_send_to_sp
      debt_to_redistribute := debt_to_redistribute
      coll_to_redistribute := coll_to_redistribute }
  else
    pure { v with
      debt_to_offset := 0
      coll_to_send_to_sp := 0
      debt_to_redistribute := v.entire_trove_debt
      coll_to_redistribute := coll }

/-- `PoolState::get_capped_offset_vals` (state/pool_state.rs): full offset
of the debt at a collateral rate capped at `mcr`, the rest of the
collateral becoming owner surplus. -/
def get_capped_offset_vals (p : PoolState) (entire_trove_debt entire_trove_coll price : Nat) :
    Except PErr LiquidationValues := do
  let capped_coll_portion ← tryU64
    (← chDiv (← chMul128 entire_trove_debt p.mcr) price)
  let coll_gas_compensation ← get_coll_gas_compensation p capped_coll_portion
  let coll_to_send_to_sp ← chSub capped_coll_portion coll_gas_compensation
  let coll_surplus ← chSub entire_trove_coll capped_coll_portion
  pure { lvDefault with
    entire_trove_debt := entire_trove_debt
    entire_trove_coll := entire_trove_coll
    coll_gas_compensation := coll_gas_compensation
    usv_gas_compensation := p.gas_compensation
    debt_to_offset := entire_trove_debt
    coll_to_send_to_sp := coll_to_send_to_sp
    coll_surplus := coll_surplus
    debt_to_redistribute := 0
    coll_to_redistribute := 0 }

/-- `liquidate_normal_mode` (instructions/liquidate_trove.rs): applies
pending rewards, removes the stake, offsets against the Stability Pool and
redistributes the rest, then closes the Trove and removes it from the
sorted list. -/
def liquidate_normal_mode (p : PoolState) (t : Trove) (usv_in_stab_pool : Nat) :
    Except PErr (LiquidationValues × Trove × PoolState) := do
  let edc ← get_entire_debt_coll t p
  let entire_trove_debt := edc.1
  let entire_trove_coll := edc.2.1
  let pending_debt_reward := edc.2.2.1
  let pending_coll_reward := edc.2.2.2
  let p ← move_pending_trove_rewards_to_active p pending_debt_reward
    pending_coll_reward
  let (t, p) ← remove_stake t p
  let coll_gas_compensation ← get_coll_gas_compensation p entire_trove_coll
  let coll_to_liquidate ← chSub entire_trove_coll coll_gas_compensation
  let v ← offset_and_redistribute { lvDefault with
    entire_trove_debt := entire_trove_debt
    entire_trove_coll := entire_trove_coll
    coll_gas_compensation := coll_gas_compensation
    usv_gas_compensation := p.gas_compensation } coll_to_liquidate usv_in_stab_pool
  let (t, p) ← close_trove t p TroveStatus.closedByLiquidation
  let p ← remove_sorted p
  pure (v, t, p)

/-- `liquidate_recovery_mode` (instructions/liquidate_trove.rs): the
three-branch recovery-mode liquidation; returns all-zero values untouched
when at most one Trove is in the system, and when no branch applies. -/
def liquidate_recovery_mode (p : PoolState) (t : Trove)
    (usv_in_stab_pool tcr icr price : Nat) :
    Except PErr (LiquidationValues × Trove × PoolState) := do
  if p.trove_size ≤ 1 then
    pure (lvDefault, t, p)
  else do
    let edc ← get_entire_debt_coll t p
    let entire_trove_debt := edc.1
    let entire_trove_coll := edc.2.1
    let pending_debt_reward := edc.2.2.1
    let pending_coll_reward := edc.2.2.2
    let coll_gas_compensation ← get_coll_gas_compensation p entire_trove_coll
    let coll_to_liquidate ← chSub entire_trove_coll coll_gas_compensation
    if icr ≤ ONE_HUNDERED_PERCENT then do
      let p ← move_pending_trove_rewards_to_active p pending_debt_reward
        pending_coll_reward
      let (t, p) ← remove_stake t p
      let v := { lvDefault with
        entire_trove_debt := entire_trove_debt
        entire_trove_coll := entire_trove_coll
        coll_gas_compensation := coll_gas_compensation
        usv_gas_compensation := p.gas_compensation
        debt_to_offset := 0
        coll_to_send_to_sp := 0
        debt_to_redistribute := entire_trove_debt
        coll_to_redistribute := coll_to_liquidate }
      let (t, p) ← close_trove t p TroveStatus.closedByLiquidation
      let p ← remove_sorted p
      pure (v, t, p)
    else if ONE_HUNDERED_PERCENT < icr ∧ icr < p.mcr then do
      let p ← move_pending_trove_rewards_to_active p pending_debt_reward
        pending_coll_reward
      let (t, p) ← remove_stake t p
      let v ← offset_and_redistribute { lvDefault with
        entire_trove_debt := entire_trove_debt
        entire_trove_coll := entire_trove_coll
        coll_gas_compensation := coll_gas_compensation
        usv_gas_compensation := p.gas_compensation } coll_to_liquidate
        usv_in_stab_pool
      let (t, p) ← close_trove t p TroveStatus.closedByLiquidation
      let p ← remove_sorted p
      pure (v, t, p)
    else if p.mcr ≤ icr ∧ icr < tcr ∧ entire_trove_debt ≤ usv_in_stab_pool then do
      let p ← move_pending_trove_rewards_to_active p pending_debt_reward
        pending_coll_reward
      if usv_in_stab_pool = 0 then .error .overflow
      else do
        let (t, p) ← remove_stake t p
        let v ← get_capped_offset_vals p entire_trove_debt entire_trove_coll price
        let (t, p) ← close_trove t p TroveStatus.closedByLiquidation
        let p ← remove_sorted p
        let t ← if 0 < v.coll_surplus then account_surplus t v.coll_surplus
          else pure t
        pure (v, t, p)
    else
      pure (lvDefault, t, p)

/-- `get_totals_from_liquidate_normal_mode` (instructions/liquidate_trove.rs). -/
def get_totals_from_liquidate_normal_mode (price usv_in_stab_pool : Nat)
    (t : Trove) (p : PoolState) :
    Except PErr (LiquidationTotals × Trove × PoolState) := do
  let icr ← get_current_icr t p price
  if icr < p.mcr then do
    let (v, t, p) ← liquidate_normal_mode p t usv_in_stab_pool
    let tot ← add_liquidation_values ltDefault v
    pure (tot, t, p)
  else
    pure (ltDefault, t, p)

/-- `get_totals_from_liquidate_recovery_mode` (instructions/liquidate_trove.rs). -/
def get_totals_from_liquidate_recovery_mode (price usv_in_stab_pool : Nat)
    (t : Trove) (p : PoolState) :
    Except PErr (LiquidationTotals × Trove × PoolState) := do
  if t.status ≠ TroveStatus.active then
    pure (ltDefault, t, p)
  else do
    let icr ← get_current_icr t p price
    if p.mcr ≤ icr ∧ usv_in_stab_pool = 0 then
      pure (ltDefault, t, p)
    else do
      let tcr ← compute_cr (← get_entire_coll p) (← get_entire_debt p) price
      let (v, t, p) ← liquidate_recovery_mode p t usv_in_stab_pool tcr icr price
      let tot ← add_liquidation_values ltDefault v
      pure (tot, t, p)

/-- `PoolState::move_coll_debt_from_liquidate` (state/pool_state.rs). -/
def move_coll_debt_from_liquidate (p : PoolState) (sp : SPState)
    (tot : LiquidationTotals) : Except PErr (PoolState × SPState) := do
  let p ← decrease_active_coll p tot.total_coll_gas_compensation
  let p ← decrease_active_debt p tot.total_debt_to_offset
  let sp ← sp_decrease_usv sp tot.total_debt_to_offset
  let p ← decrease_active_coll p tot.total_coll_to_send_to_sp
  let sp ← sp_increase_coll sp tot.total_coll_to_send_to_sp
  pure (p, sp)

/-- `StabilityPoolState::offset` (state/stability_pool_state.rs). -/
def sp_offset (sp : SPState) (es : EpochScale) (tot : LiquidationTotals)
    (cvgt_issuance : Nat) : Except PErr (SPState × EpochScale) := do
  let (es, sp) ← update_g es sp cvgt_issuance
  let (sp, coll_gain_per_unit_staked, usv_loss_per_unit_staked) ←
    compute_rewards_per_unit_staked sp tot.total_coll_to_send_to_sp
      tot.total_debt_to_offset
  update_reward_sum_and_product sp es coll_gain_per_unit_staked
    usv_loss_per_unit_staked

/-- Total computation step of `liquidate_trove_handler`: dispatch between
normal- and recovery-mode liquidation. -/
def liquidate_totals (price usv_in_stab_pool : Nat) (recovery : Bool)
    (t : Trove) (p : PoolState) :
    Except PErr (LiquidationTotals × Trove × PoolState) :=
  if recovery then get_totals_from_liquidate_recovery_mode price usv_in_stab_pool t p
  else get_totals_from_liquidate_normal_mode price usv_in_stab_pool t p

/-- `liquidate_trove_handler` (instructions/liquidate_trove.rs): the full
state transition of a single-Trove liquidation at an already-fetched
`price` (token mints/burns/transfers are external effects outside this
state model).  Fails with `LiquidateZeroDebt` when the total debt in the
sequence is zero. -/
def liquidate_trove_handler (p : PoolState) (t : Trove) (sp : SPState)
    (es : EpochScale) (price cvgt_issuance : Nat) :
    Except PErr (PoolState × Trove × SPState × EpochScale) := do
  let usv_in_stab_pool := sp.total_usv_deposits
  let is_recovery_mode_at_start ← check_recovery_mode p price
  let (tot, t, p) ← liquidate_totals price usv_in_stab_pool
    is_recovery_mode_at_start t p
  if 0 < tot.total_debt_in_sequence then do
    let (sp, es) ←
      if 0 < tot.total_debt_to_offset ∧ 0 < usv_in_stab_pool then
        sp_offset sp es tot cvgt_issuance
      else
        pure (sp, es)
    let p ← redistribute_debt_and_coll p tot.total_debt_to_redistribute
      tot.total_coll_to_redistribute
    let p ←
      if 0 < tot.total_coll_surplus then do
        let p ← decrease_active_coll p tot.total_coll_surplus
        increase_total_surplus p tot.total_coll_surplus
      else
        pure p
    let p ← update_system_snapshots_exclude_coll_remainder p
      tot.total_coll_gas_compensation
    let (p, sp) ← move_coll_debt_from_liquidate p sp tot
    pure (p, t, sp, es)
  else
    .error .liquidateZeroDebt

/-- Output values of redeeming against one Trove
(`SingleRedemptionValues` in instructions/redeem_collateral.rs).  The
source field `canceled_partial` is called `canceledPart` here. -/
structure SingleRedemptionValues where
  usv_lot : Nat
  coll_lot : Nat
  canceledPart : Bool
  usv_gas_to_burn : Nat
  deriving Repr, DecidableEq

/-- `SingleRedemptionValues::default()`. -/
def srDefault : SingleRedemptionValues :=
  ⟨0, 0, false, 0⟩

/-- `redeem_close_trove` (instructions/redeem_collateral.rs): on a full
redemption, burn the gas-compensation debt and park the remaining
collateral as owner-claimable surplus. -/
def redeem_close_trove (t : Trove) (p : PoolState) (usv_amt coll_amt : Nat) :
    Except PErr (Trove × PoolState) := do
  let p ← decrease_active_debt p usv_amt
  let t ← account_surplus t coll_amt
  let p ← decrease_active_coll p coll_amt
  let p ← increase_total_surplus p coll_amt
  pure (t, p)

/-- `redeem_collateral_from_trove` (instructions/redeem_collateral.rs):
redeem `min(max_usv_amt, debt - gas_compensation)` from one Trove, closing
it when only the gas compensation remains, cancelling when the remainder
would fall below the minimum net debt, and shrinking it in place
otherwise. -/
def redeem_collateral_from_trove (t : Trove) (max_usv_amt price : Nat)
    (p : PoolState) : Except PErr (SingleRedemptionValues × Trove × PoolState) := do
  let usv_lot := min max_usv_amt (← chSub t.debt p.gas_compensation)
  let coll_lot ← tryU64 (← chDiv (← chMul128 usv_lot DECIMAL_PRECISION) price)
  let new_debt ← chSub t.debt usv_lot
  let new_coll ← chSub t.coll coll_lot
  if new_debt = p.gas_compensation then do
    let (t, p) ← remove_stake t p
    let (t, p) ← close_trove t p TroveStatus.closedByRedemption
    let (t, p) ← redeem_close_trove t p p.gas_compensation new_coll
    pure ({ srDefault with
      usv_lot := usv_lot
      coll_lot := coll_lot
      usv_gas_to_burn := p.gas_compensation }, t, p)
  else do
    if (← get_net_debt p new_debt) < p.min_net_debt then
      pure ({ srDefault with
        usv_lot := usv_lot
        coll_lot := coll_lot
        canceledPart := true }, t, p)
    else do
      let t := { t with debt := new_debt, coll := new_coll }
      let (t, p) ← update_stake_and_total_stakes t p
      pure ({ srDefault with usv_lot := usv_lot, coll_lot := coll_lot }, t, p)

/-- Accumulated totals of the redemption walk, restricted to the fields
the loop in `redeem_collateral_handler` updates per Trove. -/
structure RedTotals where
  total_usv_gas_to_burn : Nat
  total_usv_to_redeem : Nat
  total_coll_drawn : Nat
  deriving Repr, DecidableEq

/-- Per-iteration totals update of `redeem_collateral_handler`
(lines 299-312). -/
def red_totals_add (tot : RedTotals) (sr : SingleRedemptionValues) :
    Except PErr RedTotals := do
  let a ← chAdd64 tot.total_usv_gas_to_burn sr.usv_gas_to_burn
  let b ← chAdd64 tot.total_usv_to_redeem sr.usv_lot
  let c ← chAdd64 tot.total_coll_drawn sr.coll_lot
  pure ⟨a, b, c⟩

/-- The Trove-walk loop of `redeem_collateral_handler` over the caller's
candidate list: stops when the requested amount is exhausted or a partial
redemption is cancelled.  Per iteration it applies the pending rewards,
redeems from the Trove, and either removes a closed Trove from the sorted
list or re-inserts it (only the `trove_size` bookkeeping of the
pointer surgery is in this model's state; on a re-insertion the removal
and insertion cancel).  A cancelled Trove's account is not written back:
it stays at its pre-loop-iteration state in the output list, exactly as
the handler breaks before `try_serialize`. -/
def redeemWalk (price : Nat) (p : PoolState) (remaining : Nat) (tot : RedTotals) :
    List Trove → Except PErr (PoolState × Nat × RedTotals × List Trove)
  | [] => pure (p, remaining, tot, [])
  | t :: ts => do
    if remaining = 0 then
      pure (p, remaining, tot, t :: ts)
    else do
      let (p1, t1) ← apply_pending_reward p t
      let (sr, t2, p2) ← redeem_collateral_from_trove t1 remaining price p1
      if sr.canceledPart then
        pure (p2, remaining, tot, t :: ts)
      else do
        let p3 ←
          if t2.status = TroveStatus.closedByRedemption then
            remove_sorted p2
          else do
            let nicr ← compute_nominal_cr t2.coll t2.debt
            if nicr = 0 then .error .nicrZero else pure p2
        let tot ← red_totals_add tot sr
        let remaining ← chSub remaining sr.usv_lot
        let (pf, rf, totf, tsf) ← redeemWalk price p3 remaining tot ts
        pure (pf, rf, totf, t2 :: tsf)

/-- `TIMEOUT` (constants.rs): oracle freshness window, seconds. -/
def TIMEOUT : Int := 14400

/-- `MAX_CONFIDENCE_RATE` (constants.rs): 5% at feed precision. -/
def MAX_CONFIDENCE_RATE : Nat := 5000000

/-- `FEED_DECIMAL_PRECISION` (constants.rs): 1e8. -/
def FEED_DECIMAL_PRECISION : Nat := 100000000

/-- `TARGET_DECIMAL_PRECISION` (constants.rs): 1e9. -/
def TARGET_DECIMAL_PRECISION : Nat := 1000000000

/-- `MAX_PRICE_DIFFERENCE_BETWEEN_ORACLES` (constants.rs): 5%. -/
def MAX_PRICE_DIFFERENCE_BETWEEN_ORACLES : Nat := 5000000

/-- A Pyth price message (`Price` from the Pyth SDK): signed price,
confidence, publish time.  The exponent field is unused by the program. -/
structure PythPrice where
  price : Int
  conf : Nat
  publish_time : Int
  deriving Repr, DecidableEq

/-- A Chainlink round (`Round` from chainlink_solana). -/
structure ChainlinkRound where
  round_id : Nat
  slot : Nat
  timestamp : Nat
  answer : Int
  deriving Repr, DecidableEq

/-- The five oracle trust states (`Status` in state/price_feed_state.rs). -/
inductive OracleStatus where
  | pythWorking
  | usingChainlinkPythUntrusted
  | bothOraclesUntrusted
  | usingChainlinkPythFrozen
  | usingPythChainlinkUntrusted
  deriving Repr, DecidableEq

/-- Oracle failover state (`PriceFeedState` in state/price_feed_state.rs),
minus the feed account keys and dev-mode override. -/
structure PriceFeedState where
  last_good_price : Nat
  status : OracleStatus
  deriving Repr, DecidableEq

/-- `is_pyth_broken` (utils.rs); `now` is the chain clock the source reads
through `get_current_timestamp_i64`. -/
def is_pyth_broken (now : Int) (msg : PythPrice) : Bool :=
  msg.price ≤ 0 ∨ msg.publish_time = 0 ∨ msg.conf = 0 ∨ now < msg.publish_time

/-- `is_chainlink_broken` (utils.rs). -/
def is_chainlink_broken (round : ChainlinkRound) : Bool :=
  round.answer = 0 ∨ round.round_id = 0 ∨ round.slot = 0 ∨ round.timestamp = 0

/-- `is_pyth_frozen` (utils.rs). -/
def is_pyth_frozen (now : Int) (msg : PythPrice) : Bool :=
  TIMEOUT < now - msg.publish_time

/-- `is_chainlink_frozen` (utils.rs). -/
def is_chainlink_frozen (now : Int) (round : ChainlinkRound) : Bool :=
  TIMEOUT < now - (round.timestamp : Int)

/-- `pyth_price_conf_interval_above_max` (utils.rs): the `u64::try_from`
on the signed price and the checked division both panic on a non-positive
price, hence the `Except`. -/
def pyth_price_conf_interval_above_max (msg : PythPrice) : Except PErr Bool := do
  if msg.price < 0 then .error .overflow
  else do
    let conf_rate ← tryU64
      (← chDiv (← chMul128 msg.conf FEED_DECIMAL_PRECISION) msg.price.toNat)
    pure (decide (MAX_CONFIDENCE_RATE < conf_rate))

/-- `both_oracles_similar_price` (utils.rs): relative difference of the two
prices is within 5% (division by the smaller price, panicking at zero). -/
def both_oracles_similar_price (pyth_price chainlink_price : Nat) :
    Except PErr Bool := do
  let min_price := min pyth_price chainlink_price
  let max_price := max pyth_price chainlink_price
  let percent_price_diff ← tryU64
    (← chDiv (← chMul128 (← chSub max_price min_price) FEED_DECIMAL_PRECISION)
      min_price)
  pure (decide (percent_price_diff ≤ MAX_PRICE_DIFFERENCE_BETWEEN_ORACLES))

/-- `both_oracles_live_unbroken_similar_price` (utils.rs). -/
def both_oracles_live_unbroken_similar_price (now : Int) (pyth_res : PythPrice)
    (chainlink_res : ChainlinkRound) (chainlink_price : Nat) : Except PErr Bool := do
  if is_chainlink_broken chainlink_res ∨ is_chainlink_frozen now chainlink_res
      ∨ is_pyth_broken now pyth_res ∨ is_pyth_frozen now pyth_res then
    pure false
  else do
    if pyth_res.price < 0 then .error .overflow
    else both_oracles_similar_price pyth_res.price.toNat chainlink_price

/-- `PriceFeedState::update_price` (state/price_feed_state.rs): rescale a
feed-precision price into target precision and persist it. -/
def update_price (s : PriceFeedState) (new_price : Nat) :
    Except PErr (PriceFeedState × Nat) := do
  let v ← tryU64 ((new_price * TARGET_DECIMAL_PRECISION) / FEED_DECIMAL_PRECISION)
  pure ({ s with last_good_price := v }, v)

/-- `PriceFeedState::update` (state/price_feed_state.rs): the 5-state
failover transition on one pair of oracle readings, returning the price to
use.  Faithful per-arm translation of the source `match`. -/
def price_feed_update (s : PriceFeedState) (now : Int) (pyth : PythPrice)
    (round : ChainlinkRound) (price_chainlink : Nat) :
    Except PErr (PriceFeedState × Nat) := do
  let price_pyth : Nat := if 0 < pyth.price then pyth.price.toNat else 0
  match s.status with
  | OracleStatus.pythWorking => do
    if is_pyth_broken now pyth then
      if is_chainlink_broken round then
        pure ({ s with status := OracleStatus.bothOraclesUntrusted },
          s.last_good_price)
      else if is_chainlink_frozen now round then
        pure ({ s with status := OracleStatus.usingChainlinkPythUntrusted },
          s.last_good_price)
      else
        update_price { s with status := OracleStatus.usingChainlinkPythUntrusted }
          price_chainlink
    else if is_pyth_frozen now pyth then
      if is_chainlink_broken round then
        pure ({ s with status := OracleStatus.usingPythChainlinkUntrusted },
          s.last_good_price)
      else if is_chainlink_frozen now round then
        pure ({ s with status := OracleStatus.usingChainlinkPythFrozen },
          s.last_good_price)
      else
        update_price { s with status := OracleStatus.usingChainlinkPythFrozen }
          price_chainlink
    else do
      if ← pyth_price_conf_interval_above_max pyth then
        if is_chainlink_broken round then
          pure ({ s with status := OracleStatus.bothOraclesUntrusted },
            s.last_good_price)
        else if is_chainlink_frozen now round then
          pure ({ s with status := OracleStatus.usingChainlinkPythUntrusted },
            s.last_good_price)
        else if ← both_oracles_similar_price price_pyth price_chainlink then
          update_price s price_pyth
        else
          update_price { s with status := OracleStatus.usingChainlinkPythUntrusted }
            price_chainlink
      else if is_chainlink_broken round then
        update_price { s with status := OracleStatus.usingPythChainlinkUntrusted }
          price_pyth
      else
        update_price s price_pyth
  | OracleStatus.usingChainlinkPythUntrusted => do
    if ← both_oracles_live_unbroken_similar_price now pyth round price_chainlink then
      update_price { s with status := OracleStatus.pythWorking } price_pyth
    else if is_chainlink_broken round then
      pure ({ s with status := OracleStatus.bothOraclesUntrusted },
        s.last_good_price)
    else if is_chainlink_frozen now round then
      pure (s, s.last_good_price)
    else
      update_price s price_chainlink
  | OracleStatus.bothOraclesUntrusted => do
    if ← both_oracles_live_unbroken_similar_price now pyth round price_chainlink then
      update_price { s with status := OracleStatus.pythWorking } price_pyth
    else
      pure (s, s.last_good_price)
  | OracleStatus.usingChainlinkPythFrozen => do
    if is_pyth_broken now pyth then
      if is_chainlink_broken round then
        pure ({ s with status := OracleStatus.bothOraclesUntrusted },
          s.last_good_price)
      else if is_chainlink_frozen now round then
        pure ({ s with status := OracleStatus.usingChainlinkPythUntrusted },
          s.last_good_price)
      else
        update_price { s with status := OracleStatus.usingChainlinkPythUntrusted }
          price_chainlink
    else if is_pyth_frozen now pyth then
      if is_chainlink_broken round then
        pure ({ s with status := OracleStatus.usingPythChainlinkUntrusted },
          s.last_good_price)
      else if is_chainlink_frozen now round then
        pure (s, s.last_good_price)
      else
        update_price s price_chainlink
    else if is_chainlink_broken round then
      update_price { s with status := OracleStatus.usingPythChainlinkUntrusted }
        price_pyth
    else if is_chainlink_frozen now round then
      pure (s, s.last_good_price)
    else if ← both_oracles_similar_price price_pyth price_chainlink then
      update_price { s with status := OracleStatus.pythWorking } price_pyth
    else
      update_price { s with status := OracleStatus.usingChainlinkPythUntrusted }
        price_chainlink
  | OracleStatus.usingPythChainlinkUntrusted => do
    if is_pyth_broken now pyth then
      pure ({ s with status := OracleStatus.bothOraclesUntrusted },
        s.last_good_price)
    else if is_pyth_frozen now pyth then
      pure (s, s.last_good_price)
    else if ← both_oracles_live_unbroken_similar_price now pyth round
        price_chainlink then
      update_price { s with status := OracleStatus.pythWorking } price_pyth
    else if ← pyth_price_conf_interval_above_max pyth then
      pure ({ s with status := OracleStatus.bothOraclesUntrusted },
        s.last_good_price)
    else
      update_price s price_pyth

section InversionLemmas

theorem move_pending_eq_ok {p : PoolState} {u c : Nat} {out : PoolState} :
    move_pending_trove_rewards_to_active p u c = .ok out ↔
      p.active_debt + u < U64L ∧ u ≤ p.closed_debt ∧ c ≤ p.liquidated_coll ∧
      p.active_coll + c < U64L ∧
      out = { p with
        active_debt := p.active_debt + u
        closed_debt := p.closed_debt - u
        liquidated_coll := p.liquidated_coll - c
        active_coll := p.active_coll + c } := by
  unfold move_pending_trove_rewards_to_active increase_active_debt
    decrease_closed_debt decrease_liquidated_coll increase_active_coll
  simp only [bind_eq_ok, pure_eq_ok, chAdd64_eq_ok, chSub_eq_ok]
  constructor
  · rintro ⟨_, ⟨_, ⟨rfl, hb1⟩, rfl⟩, _, ⟨_, ⟨rfl, hb2⟩, rfl⟩,
      _, ⟨_, ⟨rfl, hb3⟩, rfl⟩, _, ⟨_, ⟨rfl, hb4⟩, rfl⟩, rfl⟩
    exact ⟨hb1, hb2, hb3, hb4, rfl⟩
  · rintro ⟨hb1, hb2, hb3, hb4, rfl⟩
    exact ⟨_, ⟨_, ⟨rfl, hb1⟩, rfl⟩, _, ⟨_, ⟨rfl, hb2⟩, rfl⟩,
      _, ⟨_, ⟨rfl, hb3⟩, rfl⟩, _, ⟨_, ⟨rfl, hb4⟩, rfl⟩, rfl⟩

theorem remove_stake_eq_ok {t : Trove} {p : PoolState} {out : Trove × PoolState} :
    remove_stake t p = .ok out ↔
      t.stake ≤ p.total_stakes ∧
      out = ({ t with stake := 0 },
        { p with total_stakes := p.total_stakes - t.stake }) := by
  unfold remove_stake
  simp only [bind_eq_ok, pure_eq_ok, chSub_eq_ok]
  constructor
  · rintro ⟨_, ⟨rfl, hb⟩, rfl⟩
    exact ⟨hb, rfl⟩
  · rintro ⟨hb, rfl⟩
    exact ⟨_, ⟨rfl, hb⟩, rfl⟩

theorem remove_sorted_eq_ok {p : PoolState} {out : PoolState} :
    remove_sorted p = .ok out ↔
      1 ≤ p.trove_size ∧ out = { p with trove_size := p.trove_size - 1 } := by
  unfold remove_sorted
  simp only [bind_eq_ok, pure_eq_ok, chSub_eq_ok]
  constructor
  · rintro ⟨_, ⟨rfl, hb⟩, rfl⟩
    exact ⟨hb, rfl⟩
  · rintro ⟨hb, rfl⟩
    exact ⟨_, ⟨rfl, hb⟩, rfl⟩

theorem close_trove_eq_ok {t : Trove} {p : PoolState} {st : TroveStatus}
    {out : Trove × PoolState} :
    close_trove t p st = .ok out ↔
      ¬ (st = TroveStatus.nonExistent ∨ st = TroveStatus.active) ∧
      1 < p.trove_size ∧
      out = ({ t with
        status := st
        coll := 0
        debt := 0
        snapshot_coll_reward := 0
        snapshot_debt_reward := 0 }, p) := by
  unfold close_trove require_more_than_one_trove_in_system
  constructor
  · intro h
    split at h
    · cases h
    · rename_i hcond
      split at h
      · rename_i hsz
        simp only [bind_eq_ok, pure_eq_ok] at h
        obtain ⟨u, hu, rfl⟩ := h
        exact ⟨hcond, hsz, rfl⟩
      · simp only [bind_eq_ok] at h
        obtain ⟨u, hu, _⟩ := h
        cases hu
  · rintro ⟨hcond, hsz, rfl⟩
    rw [if_neg hcond, if_pos hsz]
    rfl

theorem account_surplus_eq_ok {t : Trove} {amt : Nat} {out : Trove} :
    account_surplus t amt = .ok out ↔
      t.surplus_balance + amt < U64L ∧
      out = { t with surplus_balance := t.surplus_balance + amt } := by
  unfold account_surplus
  simp only [bind_eq_ok, pure_eq_ok, chAdd64_eq_ok]
  constructor
  · rintro ⟨_, ⟨rfl, hb⟩, rfl⟩
    exact ⟨hb, rfl⟩
  · rintro ⟨hb, rfl⟩
    exact ⟨_, ⟨rfl, hb⟩, rfl⟩

theorem get_capped_offset_vals_eq_ok {p : PoolState} {d c price : Nat}
    {out : LiquidationValues} :
    get_capped_offset_vals p d c price = .ok out ↔
      d * p.mcr < U128L ∧ price ≠ 0 ∧ d * p.mcr / price < U64L ∧
      p.coll_gas_comp_percent_divisor ≠ 0 ∧
      d * p.mcr / price / p.coll_gas_comp_percent_divisor ≤ d * p.mcr / price ∧
      d * p.mcr / price ≤ c ∧
      out = { lvDefault with
        entire_trove_debt := d
        entire_trove_coll := c
        coll_gas_compensation := d * p.mcr / price / p.coll_gas_comp_percent_divisor
        usv_gas_compensation := p.gas_compensation
        debt_to_offset := d
        coll_to_send_to_sp := d * p.mcr / price -
          d * p.mcr / price / p.coll_gas_comp_percent_divisor
        coll_surplus := c - d * p.mcr / price
        debt_to_redistribute := 0
        coll_to_redistribute := 0 } := by
  unfold get_capped_offset_vals get_coll_gas_compensation
  simp only [bind_eq_ok, pure_eq_ok, chMul128_eq_ok, chDiv_eq_ok, chSub_eq_ok,
    tryU64_eq_ok]
  constructor
  · rintro ⟨_, ⟨rfl, hb1⟩, _, ⟨rfl, hb3⟩, _, ⟨rfl, hb2⟩, _, ⟨rfl, hb4⟩,
      _, ⟨rfl, hb5⟩, _, ⟨rfl, hb6⟩, rfl⟩
    exact ⟨hb1, hb3, hb2, hb4, hb5, hb6, rfl⟩
  · rintro ⟨hb1, hb3, hb2, hb4, hb5, hb6, rfl⟩
    exact ⟨_, ⟨rfl, hb1⟩, _, ⟨rfl, hb3⟩, _, ⟨rfl, hb2⟩, _, ⟨rfl, hb4⟩,
      _, ⟨rfl, hb5⟩, _, ⟨rfl, hb6⟩, rfl⟩

end InversionLemmas

/-! ### Claim theorems -/

/-- C4: a redistribution of `debt > 0` and collateral `coll` increments
`l_coll` by `(coll * 1e9 + last_coll_error_redistribution) / total_stakes`
and `l_usv_debt` by `(debt * 1e9 + last_usv_debt_error_redistribution) /
total_stakes` (integer division over a necessarily positive
`total_stakes`), sets the carry terms to the corresponding remainders so
that `numerator = quotient * total_stakes + carry` holds for both
accumulators, moves the debt from `active_debt` to `closed_debt` and the
collateral from `active_coll` to `liquidated_coll`; with `debt = 0` the
state is returned unchanged. -/
theorem redistribute_carry_correct (p : PoolState) (debt coll : Nat)
    (p' : PoolState) (h : redistribute_debt_and_coll p debt coll = .ok p') :
    (debt = 0 → p' = p) ∧
    (0 < debt →
      0 < p.total_stakes ∧
      p'.l_coll = p.l_coll +
        (coll * DECIMAL_PRECISION + p.last_coll_error_redistribution) /
          p.total_stakes ∧
      p'.l_usv_debt = p.l_usv_debt +
        (debt * DECIMAL_PRECISION + p.last_usv_debt_error_redistribution) /
          p.total_stakes ∧
      p'.last_coll_error_redistribution =
        (coll * DECIMAL_PRECISION + p.last_coll_error_redistribution) %
          p.total_stakes ∧
      p'.last_usv_debt_error_redistribution =
        (debt * DECIMAL_PRECISION + p.last_usv_debt_error_redistribution) %
          p.total_stakes ∧
      coll * DECIMAL_PRECISION + p.last_coll_error_redistribution =
        ((coll * DECIMAL_PRECISION + p.last_coll_error_redistribution) /
          p.total_stakes) * p.total_stakes + p'.last_coll_error_redistribution ∧
      debt * DECIMAL_PRECISION + p.last_usv_debt_error_redistribution =
        ((debt * DECIMAL_PRECISION + p.last_usv_debt_error_redistribution) /
          p.total_stakes) * p.total_stakes +
          p'.last_usv_debt_error_redistribution ∧
      debt ≤ p.active_debt ∧ coll ≤ p.active_coll ∧
      p'.active_debt = p.active_debt - debt ∧
      p'.closed_debt = p.closed_debt + debt ∧
      p'.active_coll = p.active_coll - coll ∧
      p'.liquidated_coll = p.liquidated_coll + coll) := by
  by_cases hd : debt = 0
  · refine ⟨fun _ => ?_, fun h0 => absurd hd (Nat.pos_iff_ne_zero.mp h0)⟩
    rw [redistribute_debt_and_coll, if_pos hd, pure_eq_ok] at h
    exact h
  · refine ⟨fun h0 => absurd h0 hd, fun _ => ?_⟩
    rw [redistribute_debt_and_coll, if_neg hd] at h
    simp only [bind_eq_ok, chAdd128_eq_ok, chMul128_eq_ok, chDiv_eq_ok,
      chSub_eq_ok, chAdd64_eq_ok, pure_eq_ok, decrease_active_debt,
      increase_closed_debt, decrease_active_coll, increase_liquidated_coll,
      Except.ok.injEq] at h
    obtain ⟨_, ⟨rfl, h1⟩, _, ⟨rfl, h2⟩, _, ⟨rfl, h3⟩, _, ⟨rfl, h4⟩,
      _, ⟨rfl, h5⟩, _, ⟨rfl, h6⟩, _, ⟨rfl, h7⟩, _, ⟨rfl, h8⟩,
      _, ⟨rfl, h9⟩, _, ⟨rfl, h10⟩, _, ⟨rfl, h11⟩, _, ⟨rfl, h12⟩,
      _, ⟨_, ⟨rfl, h13⟩, rfl⟩, _, ⟨_, ⟨rfl, h14⟩, rfl⟩,
      _, ⟨_, ⟨rfl, h15⟩, rfl⟩, _, ⟨_, ⟨rfl, h16⟩, rfl⟩, rfl⟩ := h
    refine ⟨Nat.pos_of_ne_zero h5, rfl, rfl, ?_, ?_, ?_, ?_, h13, h15,
      rfl, rfl, rfl, rfl⟩
    · simp [Nat.mod_def, Nat.mul_comm]
    · simp [Nat.mod_def, Nat.mul_comm]
    · exact (Nat.add_sub_cancel' (Nat.div_mul_le_self _ _)).symm
    · exact (Nat.add_sub_cancel' (Nat.div_mul_le_self _ _)).symm



/-- C4 witness: a concrete redistribution (3 units of stake, debt 10,
collateral 7) on which the theorem's hypothesis holds. -/
theorem redistribute_carry_correct_witness :
    redistribute_debt_and_coll ⟨0, 0, 0, 0, 1, 3, 0, 0, 0, 0, 0, 0, 0, 7, 0, 7, 10, 2⟩
      10 7 = .ok ⟨0, 0, 0, 0, 1, 3, 0, 0, 2333333333, 3333333333, 1, 1, 0, 14, 10, 0, 0, 2⟩ ∧
    0 < (⟨0, 0, 0, 0, 1, 3, 0, 0, 0, 0, 0, 0, 0, 7, 0, 7, 10, 2⟩ : PoolState).total_stakes := by
  have hok : redistribute_debt_and_coll
      ⟨0, 0, 0, 0, 1, 3, 0, 0, 0, 0, 0, 0, 0, 7, 0, 7, 10, 2⟩ 10 7 =
      .ok ⟨0, 0, 0, 0, 1, 3, 0, 0, 2333333333, 3333333333, 1, 1, 0, 14, 10, 0, 0, 2⟩ := by
    rfl
  exact ⟨hok, ((redistribute_carry_correct _ 10 7 _ hok).2 (by norm_num)).1⟩


theorem require_trove_active_eq_ok {t : Trove} {u : Unit} :
    require_trove_active t = .ok u ↔ t.status = TroveStatus.active := by
  cases u
  unfold require_trove_active
  split <;> simp_all [pure_eq_ok]

/-- C8: applying pending rewards twice in a row with no intervening
redistribution is a no-op the second time: the first application sets the
Trove's snapshots to `l_coll` / `l_usv_debt`, so the second finds no
pending rewards and returns the state unchanged. -/
theorem apply_pending_reward_idempotent (p : PoolState) (t : Trove)
    (p1 : PoolState) (t1 : Trove)
    (h : apply_pending_reward p t = .ok (p1, t1)) :
    apply_pending_reward p1 t1 = .ok (p1, t1) := by
  cases hb : has_pending_rewards t p with
  | false =>
    rw [apply_pending_reward, if_neg (by simp [hb]), pure_eq_ok] at h
    injection h with h1 h2
    subst h1
    subst h2
    rw [apply_pending_reward, if_neg (by simp [hb]), pure_eq_ok]
  | true =>
    rw [apply_pending_reward, if_pos (by simp [hb])] at h
    simp only [bind_eq_ok, pure_eq_ok] at h
    obtain ⟨u, hu, pc, hpc, pd, hpd, c, hc, d, hd, pmv, hmv, hout⟩ := h
    injection hout with h1 h2
    subst h1
    subst h2
    simp only [move_pending_trove_rewards_to_active, increase_active_debt,
      decrease_closed_debt, decrease_liquidated_coll, increase_active_coll,
      bind_eq_ok, pure_eq_ok, chAdd64_eq_ok, chSub_eq_ok] at hmv
    obtain ⟨_, ⟨_, ⟨rfl, _⟩, rfl⟩, _, ⟨_, ⟨rfl, _⟩, rfl⟩, _, ⟨_, ⟨rfl, _⟩, rfl⟩,
      _, ⟨_, ⟨rfl, _⟩, rfl⟩, rfl⟩ := hmv
    have hstat : t.status = TroveStatus.active := by
      by_contra hs
      rw [has_pending_rewards, if_pos hs] at hb
      cases hb
    rw [apply_pending_reward, if_neg ?_, pure_eq_ok]
    simp [has_pending_rewards, update_reward_snapshot, hstat]


/-- C8 witness: a Trove with genuinely pending rewards; the first
application changes it, the second is a no-op. -/
theorem apply_pending_reward_idempotent_witness :
    apply_pending_reward
      ⟨0, 0, 0, 0, 1, 4, 0, 0, 2000000000, 3000000000, 0, 0, 0, 10, 20, 5, 5, 2⟩
      ⟨4, 3, 2, 0, 0, 0, TroveStatus.active⟩ =
      .ok (⟨0, 0, 0, 0, 1, 4, 0, 0, 2000000000, 3000000000, 0, 0, 0, 6, 14, 9, 11, 2⟩,
        ⟨10, 7, 2, 2000000000, 3000000000, 0, TroveStatus.active⟩) ∧
    apply_pending_reward
      ⟨0, 0, 0, 0, 1, 4, 0, 0, 2000000000, 3000000000, 0, 0, 0, 6, 14, 9, 11, 2⟩
      ⟨10, 7, 2, 2000000000, 3000000000, 0, TroveStatus.active⟩ =
      .ok (⟨0, 0, 0, 0, 1, 4, 0, 0, 2000000000, 3000000000, 0, 0, 0, 6, 14, 9, 11, 2⟩,
        ⟨10, 7, 2, 2000000000, 3000000000, 0, TroveStatus.active⟩) := by
  have hok : apply_pending_reward
      ⟨0, 0, 0, 0, 1, 4, 0, 0, 2000000000, 3000000000, 0, 0, 0, 10, 20, 5, 5, 2⟩
      ⟨4, 3, 2, 0, 0, 0, TroveStatus.active⟩ =
      .ok (⟨0, 0, 0, 0, 1, 4, 0, 0, 2000000000, 3000000000, 0, 0, 0, 6, 14, 9, 11, 2⟩,
        ⟨10, 7, 2, 2000000000, 3000000000, 0, TroveStatus.active⟩) := by
    rfl
  exact ⟨hok, apply_pending_reward_idempotent _ _ _ _ hok⟩


/-- C9: whenever `trove_size ≤ 1`, closing a Trove — by owner close, by
liquidation, or by redemption close, i.e. with any of the three closed
statuses — fails with the `OnlyOneTrove` error before any state is
mutated, so the system always retains at least one active Trove. -/
theorem close_trove_only_one_trove (t : Trove) (p : PoolState)
    (closed_status : TroveStatus) (hsize : p.trove_size ≤ 1)
    (h1 : closed_status ≠ TroveStatus.nonExistent)
    (h2 : closed_status ≠ TroveStatus.active) :
    close_trove t p closed_status = .error .onlyOneTrove := by
  have hr : require_more_than_one_trove_in_system p = .error .onlyOneTrove := by
    rw [require_more_than_one_trove_in_system, if_neg (by omega)]
  rw [close_trove, if_neg (by simp [h1, h2])]
  simp [hr, Bind.bind, Except.bind]

/-- C9 witness: with a single Trove in the system, all three close paths
error with `OnlyOneTrove`. -/
theorem close_trove_only_one_trove_witness :
    close_trove ⟨100, 50, 10, 0, 0, 0, TroveStatus.active⟩
      ⟨0, 0, 0, 0, 1, 10, 0, 0, 0, 0, 0, 0, 0, 0, 0, 50, 100, 1⟩
      TroveStatus.closedByOwner = .error .onlyOneTrove ∧
    close_trove ⟨100, 50, 10, 0, 0, 0, TroveStatus.active⟩
      ⟨0, 0, 0, 0, 1, 10, 0, 0, 0, 0, 0, 0, 0, 0, 0, 50, 100, 1⟩
      TroveStatus.closedByLiquidation = .error .onlyOneTrove ∧
    close_trove ⟨100, 50, 10, 0, 0, 0, TroveStatus.active⟩
      ⟨0, 0, 0, 0, 1, 10, 0, 0, 0, 0, 0, 0, 0, 0, 0, 50, 100, 1⟩
      TroveStatus.closedByRedemption = .error .onlyOneTrove :=
  ⟨close_trove_only_one_trove _ _ _ (by norm_num) (by simp) (by simp),
   close_trove_only_one_trove _ _ _ (by norm_num) (by simp) (by simp),
   close_trove_only_one_trove _ _ _ (by norm_num) (by simp) (by simp)⟩


/-- C3: in a Stability Pool offset, `S` is updated before `P` as
`S_new = S + collGainPerUnitStaked * P_current`; on full depletion
(`usvLossPerUnitStaked = 1e9`) the epoch increments, the scale resets to 0
and `P` resets to 1e9; otherwise if `P * (1e9 - loss) / 1e9` would fall
below `SCALE_FACTOR` the scale increments and
`P := P * (1e9 - loss) * SCALE_FACTOR / 1e9`, else
`P := P * (1e9 - loss) / 1e9`; in every case the resulting `P` is
strictly positive. -/
theorem update_reward_sum_and_product_spec (sp : SPState) (es : EpochScale)
    (cg l : Nat) (sp' : SPState) (es' : EpochScale)
    (h : update_reward_sum_and_product sp es cg l = .ok (sp', es')) :
    es'.sum = es.sum + cg * sp.p ∧
    l ≤ DECIMAL_PRECISION ∧
    (l = DECIMAL_PRECISION →
      sp'.current_epoch = sp.current_epoch + 1 ∧ sp'.current_scale = 0 ∧
      sp'.p = DECIMAL_PRECISION) ∧
    (l ≠ DECIMAL_PRECISION →
      sp'.current_epoch = sp.current_epoch ∧
      (sp.p * (DECIMAL_PRECISION - l) / DECIMAL_PRECISION < SCALE_FACTOR →
        sp'.current_scale = sp.current_scale + 1 ∧
        sp'.p = sp.p * (DECIMAL_PRECISION - l) * SCALE_FACTOR / DECIMAL_PRECISION) ∧
      (¬ sp.p * (DECIMAL_PRECISION - l) / DECIMAL_PRECISION < SCALE_FACTOR →
        sp'.current_scale = sp.current_scale ∧
        sp'.p = sp.p * (DECIMAL_PRECISION - l) / DECIMAL_PRECISION)) ∧
    0 < sp'.p := by
  by_cases hl : l ≤ DECIMAL_PRECISION
  · rw [update_reward_sum_and_product, if_pos hl] at h
    simp only [bind_eq_ok, pure_eq_ok, chSub_eq_ok, chMul128_eq_ok,
      chAdd128_eq_ok, chDiv_eq_ok] at h
    obtain ⟨_, ⟨rfl, hfle⟩, _, ⟨rfl, hm⟩, _, ⟨rfl, hs⟩, h⟩ := h
    by_cases hf0 : DECIMAL_PRECISION - l = 0
    · rw [if_pos hf0] at h
      simp only [bind_eq_ok, pure_eq_ok, chAdd128_eq_ok] at h
      obtain ⟨_, ⟨rfl, he⟩, _, rfl, h⟩ := h
      rw [if_pos (by norm_num [DECIMAL_PRECISION]), pure_eq_ok] at h
      injection h with hA hB
      subst hA
      subst hB
      exact ⟨rfl, hl, fun _ => ⟨rfl, rfl, rfl⟩,
        fun hne => absurd (by omega) hne, by norm_num [DECIMAL_PRECISION]⟩
    · rw [if_neg hf0] at h
      simp only [bind_eq_ok, pure_eq_ok, chMul128_eq_ok, chDiv_eq_ok] at h
      obtain ⟨_, ⟨rfl, hm1⟩, _, ⟨rfl, _⟩, h⟩ := h
      by_cases hscale :
          sp.p * (DECIMAL_PRECISION - l) / DECIMAL_PRECISION < SCALE_FACTOR
      · rw [if_pos hscale] at h
        simp only [bind_eq_ok, pure_eq_ok, chAdd128_eq_ok, chMul128_eq_ok,
          chDiv_eq_ok] at h
        obtain ⟨_, ⟨rfl, hsc⟩, _, ⟨rfl, hm2⟩, _, ⟨rfl, hm3⟩, _, ⟨rfl, _⟩,
          _, rfl, h⟩ := h
        split at h
        · rename_i hpos
          rw [pure_eq_ok] at h
          injection h with hA hB
          subst hA
          subst hB
          exact ⟨rfl, hl, fun heq => absurd (by omega) hf0,
            fun _ => ⟨rfl, fun _ => ⟨rfl, rfl⟩, fun hns => absurd hscale hns⟩,
            hpos⟩
        · cases h
      · rw [if_neg hscale] at h
        simp only [bind_eq_ok, pure_eq_ok, chMul128_eq_ok, chDiv_eq_ok] at h
        obtain ⟨_, ⟨rfl, hm2⟩, _, ⟨rfl, _⟩, _, rfl, h⟩ := h
        split at h
        · rename_i hpos
          rw [pure_eq_ok] at h
          injection h with hA hB
          subst hA
          subst hB
          exact ⟨rfl, hl, fun heq => absurd (by omega) hf0,
            fun _ => ⟨rfl, fun hs2 => absurd hs2 hscale, fun _ => ⟨rfl, rfl⟩⟩,
            hpos⟩
        · cases h
  · rw [update_reward_sum_and_product, if_neg hl] at h
    cases h


/-- C3 witness: a concrete offset that crosses the scale boundary
(`P = 1e9`, loss `1e9 - 1`): the scale increments and `P` lands on
`1e5`, strictly positive. -/
theorem update_reward_sum_and_product_spec_witness :
    update_reward_sum_and_product ⟨0, 0, 1000000000, 0, 0, 0, 0, 0⟩ ⟨0, 0⟩
      0 999999999 = .ok (⟨0, 0, 100000, 1, 0, 0, 0, 0⟩, ⟨0, 0⟩) ∧
    0 < (⟨0, 0, 100000, 1, 0, 0, 0, 0⟩ : SPState).p := by
  have hok : update_reward_sum_and_product ⟨0, 0, 1000000000, 0, 0, 0, 0, 0⟩
      ⟨0, 0⟩ 0 999999999 = .ok (⟨0, 0, 100000, 1, 0, 0, 0, 0⟩, ⟨0, 0⟩) := by
    rfl
  exact ⟨hok, (update_reward_sum_and_product_spec _ _ _ _ _ _ hok).2.2.2.2⟩


/-- C6: from `BothOraclesUntrusted`, the status moves to `PythWorking` —
with `last_good_price` updated to the rescaled Pyth price, which is also
returned — if and only if both oracles are live, unbroken and mutually
consistent; in every other (successful) case the call returns
`last_good_price` and leaves both the status and `last_good_price`
unchanged. -/
theorem price_feed_both_untrusted_spec (s : PriceFeedState) (now : Int)
    (pyth : PythPrice) (round : ChainlinkRound) (cp : Nat)
    (s' : PriceFeedState) (ret : Nat)
    (hstat : s.status = OracleStatus.bothOraclesUntrusted)
    (h : price_feed_update s now pyth round cp = .ok (s', ret)) :
    (both_oracles_live_unbroken_similar_price now pyth round cp = .ok true →
      s'.status = OracleStatus.pythWorking ∧
      s'.last_good_price =
        (if 0 < pyth.price then pyth.price.toNat else 0) *
          TARGET_DECIMAL_PRECISION / FEED_DECIMAL_PRECISION ∧
      ret = s'.last_good_price) ∧
    (both_oracles_live_unbroken_similar_price now pyth round cp = .ok false →
      s' = s ∧ ret = s.last_good_price) ∧
    (s'.status = OracleStatus.pythWorking ↔
      both_oracles_live_unbroken_similar_price now pyth round cp = .ok true) := by
  obtain ⟨lgp, st⟩ := s
  change st = _ at hstat
  subst hstat
  rw [price_feed_update] at h
  simp only [bind_eq_ok, pure_eq_ok] at h
  obtain ⟨bv, hb, h⟩ := h
  cases bv with
  | false =>
    rw [if_neg (by simp), pure_eq_ok] at h
    injection h with hA hB
    subst hA
    subst hB
    refine ⟨fun htr => ?_, fun _ => ⟨rfl, rfl⟩, ?_⟩
    · rw [hb] at htr
      injection htr with hbad
      cases hbad
    · constructor
      · intro hst
        cases hst
      · intro htr
        rw [hb] at htr
        injection htr with hbad
        cases hbad
  | true =>
    rw [if_pos rfl] at h
    rw [update_price] at h
    simp only [bind_eq_ok, pure_eq_ok, tryU64_eq_ok] at h
    obtain ⟨_, ⟨rfl, hvlt⟩, h⟩ := h
    injection h with hA hB
    subst hA
    subst hB
    refine ⟨fun _ => ⟨rfl, rfl, rfl⟩, fun hfa => ?_, ⟨fun _ => hb, fun _ => rfl⟩⟩
    rw [hb] at hfa
    injection hfa with hbad
    cases hbad


/-- C6 witness: both oracles live and within 5% of each other while the
status is `BothOraclesUntrusted`: the feed recovers to `PythWorking` and
adopts the rescaled Pyth price. -/
theorem price_feed_both_untrusted_spec_witness :
    price_feed_update ⟨101000000000, OracleStatus.bothOraclesUntrusted⟩ 1000000
      ⟨10500000000, 1, 1000000⟩ ⟨1, 1, 1000000, 10000000000⟩ 10000000000 =
      .ok (⟨105000000000, OracleStatus.pythWorking⟩, 105000000000) ∧
    (⟨105000000000, OracleStatus.pythWorking⟩ : PriceFeedState).status =
      OracleStatus.pythWorking := by
  have hok : price_feed_update ⟨101000000000, OracleStatus.bothOraclesUntrusted⟩
      1000000 ⟨10500000000, 1, 1000000⟩ ⟨1, 1, 1000000, 10000000000⟩
      10000000000 =
      .ok (⟨105000000000, OracleStatus.pythWorking⟩, 105000000000) := by
    rfl
  exact ⟨hok,
    ((price_feed_both_untrusted_spec _ _ _ _ _ _ _ rfl hok).1 (by rfl)).1⟩


/-- C2: a recovery-mode liquidation of an active Trove with
reward-inclusive ICR at most 100% (1e9) is a pure redistribution:
`debt_to_offset` and `coll_to_send_to_sp` are zero, the entire
reward-inclusive debt `d` is redistributed, the redistributed collateral
is the entire reward-inclusive collateral minus the collateral gas
compensation, and the Stability Pool's deposits are not decreased by the
(zero) offset. -/
theorem liquidate_recovery_pure_redistribution (p : PoolState) (t : Trove)
    (usv tcr icr price : Nat) (v : LiquidationValues) (t' : Trove) (p' : PoolState)
    (d c pd pc : Nat)
    (hsize : 1 < p.trove_size)
    (hicr : icr ≤ ONE_HUNDERED_PERCENT)
    (hedc : get_entire_debt_coll t p = .ok (d, c, pd, pc))
    (h : liquidate_recovery_mode p t usv tcr icr price = .ok (v, t', p')) :
    v.debt_to_offset = 0 ∧ v.coll_to_send_to_sp = 0 ∧
    v.debt_to_redistribute = d ∧
    v.coll_to_redistribute = c - c / p.coll_gas_comp_percent_divisor ∧
    v.entire_trove_debt = d ∧ v.entire_trove_coll = c ∧
    v.coll_gas_compensation = c / p.coll_gas_comp_percent_divisor ∧
    t'.status = TroveStatus.closedByLiquidation ∧
    (∀ sp sp2 : SPState, sp_decrease_usv sp v.debt_to_offset = .ok sp2 →
      sp2.total_usv_deposits = sp.total_usv_deposits) := by
  rw [liquidate_recovery_mode, if_neg (by omega)] at h
  simp only [bind_eq_ok, pure_eq_ok, chSub_eq_ok] at h
  obtain ⟨edc, hget, h⟩ := h
  rw [hedc] at hget
  injection hget with hget
  subst hget
  obtain ⟨g, hg, _, ⟨rfl, hgle⟩, h⟩ := h
  rw [get_coll_gas_compensation, chDiv_eq_ok] at hg
  obtain ⟨rfl, hdiv⟩ := hg
  rw [if_pos hicr] at h
  simp only [bind_eq_ok, pure_eq_ok, move_pending_eq_ok, remove_stake_eq_ok,
    close_trove_eq_ok, remove_sorted_eq_ok] at h
  obtain ⟨_, ⟨hb1, hb2, hb3, hb4, rfl⟩, _, ⟨hb5, rfl⟩, _, ⟨hc1, hc2, rfl⟩,
    _, ⟨hr1, rfl⟩, hfin⟩ := h
  injection hfin with hv hfin
  injection hfin with ht hp
  subst hv
  subst ht
  subst hp
  refine ⟨rfl, rfl, rfl, rfl, rfl, rfl, rfl, rfl, ?_⟩
  intro sp sp2 hsp
  simp only [sp_decrease_usv, bind_eq_ok, pure_eq_ok, chSub_eq_ok] at hsp
  obtain ⟨_, ⟨rfl, _⟩, rfl⟩ := hsp
  simp


/-- C2 witness: recovery-mode liquidation of a Trove with
`ICR = 0.9e9 < 1e9`: fully redistributed, zero Stability Pool offset. -/
theorem liquidate_recovery_pure_redistribution_witness :
    liquidate_recovery_mode
      ⟨1100000000, 1500000000, 3, 5, 200, 30, 0, 0, 0, 0, 0, 0, 0, 0, 0, 30, 25, 2⟩
      ⟨10, 9, 10, 0, 0, 0, TroveStatus.active⟩ 100 1200000000 900000000
      1000000000 =
      .ok (⟨10, 9, 0, 5, 0, 0, 10, 9, 0⟩,
        ⟨0, 0, 0, 0, 0, 0, TroveStatus.closedByLiquidation⟩,
        ⟨1100000000, 1500000000, 3, 5, 200, 20, 0, 0, 0, 0, 0, 0, 0, 0, 0, 30, 25, 1⟩) ∧
    (⟨10, 9, 0, 5, 0, 0, 10, 9, 0⟩ : LiquidationValues).debt_to_offset = 0 ∧
    (⟨10, 9, 0, 5, 0, 0, 10, 9, 0⟩ : LiquidationValues).debt_to_redistribute = 10 := by
  have hok : liquidate_recovery_mode
      ⟨1100000000, 1500000000, 3, 5, 200, 30, 0, 0, 0, 0, 0, 0, 0, 0, 0, 30, 25, 2⟩
      ⟨10, 9, 10, 0, 0, 0, TroveStatus.active⟩ 100 1200000000 900000000
      1000000000 =
      .ok (⟨10, 9, 0, 5, 0, 0, 10, 9, 0⟩,
        ⟨0, 0, 0, 0, 0, 0, TroveStatus.closedByLiquidation⟩,
        ⟨1100000000, 1500000000, 3, 5, 200, 20, 0, 0, 0, 0, 0, 0, 0, 0, 0, 30, 25, 1⟩) := by
    rfl
  have hthm := liquidate_recovery_pure_redistribution _ _ _ _ _ _ _ _ _ 10 9 0 0
    (by norm_num) (by norm_num [ONE_HUNDERED_PERCENT]) (by rfl) hok
  exact ⟨hok, hthm.1, hthm.2.2.1⟩


/-- C1 (amended): a recovery-mode liquidation of a Trove whose
reward-inclusive ICR satisfies `MCR ≤ ICR < TCR` **and `ICR > 100%`**,
with the entire debt covered by the Stability Pool, fully offsets the debt
at a collateral rate capped at `MCR`: the portion taken is
`d * mcr / price`, the collateral gas compensation is that portion divided
by `coll_gas_comp_percent_divisor`, `coll_to_send_to_sp` is the capped
portion minus the gas compensation, the owner is credited the surplus
`c - d * mcr / price`, and nothing is redistributed.  (The extra
`ICR > 100%` hypothesis is forced by the branch order of
`liquidate_recovery_mode`: `ICR ≤ 100%` is tested first and wins.) -/
theorem liquidate_recovery_capped_offset (p : PoolState) (t : Trove)
    (usv tcr icr price : Nat) (v : LiquidationValues) (t' : Trove) (p' : PoolState)
    (d c pd pc : Nat)
    (hsize : 1 < p.trove_size)
    (hicr100 : ONE_HUNDERED_PERCENT < icr)
    (hmcr : p.mcr ≤ icr)
    (htcr : icr < tcr)
    (hedc : get_entire_debt_coll t p = .ok (d, c, pd, pc))
    (husv : d ≤ usv)
    (h : liquidate_recovery_mode p t usv tcr icr price = .ok (v, t', p')) :
    v.debt_to_offset = d ∧
    v.coll_gas_compensation = d * p.mcr / price / p.coll_gas_comp_percent_divisor ∧
    v.coll_to_send_to_sp =
      d * p.mcr / price - d * p.mcr / price / p.coll_gas_comp_percent_divisor ∧
    v.coll_surplus = c - d * p.mcr / price ∧
    t'.surplus_balance = t.surplus_balance + (c - d * p.mcr / price) ∧
    v.debt_to_redistribute = 0 ∧ v.coll_to_redistribute = 0 := by
  rw [liquidate_recovery_mode, if_neg (by omega)] at h
  simp only [bind_eq_ok, pure_eq_ok, chSub_eq_ok] at h
  obtain ⟨edc, hget, h⟩ := h
  rw [hedc] at hget
  injection hget with hget
  subst hget
  obtain ⟨g, hg, _, ⟨rfl, hgle⟩, h⟩ := h
  rw [if_neg (by omega), if_neg (by omega), if_pos ⟨hmcr, htcr, husv⟩] at h
  simp only [bind_eq_ok, pure_eq_ok, move_pending_eq_ok] at h
  obtain ⟨_, ⟨hb1, hb2, hb3, hb4, rfl⟩, h⟩ := h
  split at h
  · cases h
  · simp only [bind_eq_ok, pure_eq_ok, remove_stake_eq_ok,
      get_capped_offset_vals_eq_ok, close_trove_eq_ok, remove_sorted_eq_ok] at h
    obtain ⟨_, ⟨hb5, rfl⟩, _, ⟨hk1, hk2, hk3, hk4, hk5, hk6, rfl⟩,
      _, ⟨hc1, hc2, rfl⟩, _, ⟨hr1, rfl⟩, h⟩ := h
    split at h
    · rename_i hsur
      simp only [bind_eq_ok, pure_eq_ok, account_surplus_eq_ok] at h
      obtain ⟨_, ⟨hs1, rfl⟩, hfin⟩ := h
      injection hfin with hv hfin
      injection hfin with ht hp
      subst hv
      subst ht
      subst hp
      exact ⟨rfl, rfl, rfl, rfl, rfl, rfl, rfl⟩
    · rename_i hsur
      simp only [bind_eq_ok, pure_eq_ok] at h
      obtain ⟨_, rfl, hfin⟩ := h
      injection hfin with hv hfin
      injection hfin with ht hp
      subst hv
      subst ht
      subst hp
      refine ⟨rfl, rfl, rfl, rfl, ?_, rfl, rfl⟩
      have hz : c - d * p.mcr / price = 0 := by
        simp at hsur
        omega
      simp [hz]


/-- C1 witness: `MCR = 1.1e9`, `ICR = 1.5e9`, `TCR = 2e9`, debt 100 ≤
1000 in the pool: full offset at the capped rate, 110 collateral taken,
40 surplus credited to the owner. -/
theorem liquidate_recovery_capped_offset_witness :
    liquidate_recovery_mode
      ⟨1100000000, 1500000000, 3, 5, 200, 30, 0, 0, 0, 0, 0, 0, 0, 0, 0, 200, 150, 2⟩
      ⟨100, 150, 10, 0, 0, 0, TroveStatus.active⟩ 1000 2000000000 1500000000
      1000000000 =
      .ok (⟨100, 150, 0, 5, 100, 110, 0, 0, 40⟩,
        ⟨0, 0, 0, 0, 0, 40, TroveStatus.closedByLiquidation⟩,
        ⟨1100000000, 1500000000, 3, 5, 200, 20, 0, 0, 0, 0, 0, 0, 0, 0, 0, 200, 150, 1⟩) ∧
    (⟨100, 150, 0, 5, 100, 110, 0, 0, 40⟩ : LiquidationValues).debt_to_offset = 100 ∧
    (⟨100, 150, 0, 5, 100, 110, 0, 0, 40⟩ : LiquidationValues).debt_to_redistribute = 0 := by
  have hok : liquidate_recovery_mode
      ⟨1100000000, 1500000000, 3, 5, 200, 30, 0, 0, 0, 0, 0, 0, 0, 0, 0, 200, 150, 2⟩
      ⟨100, 150, 10, 0, 0, 0, TroveStatus.active⟩ 1000 2000000000 1500000000
      1000000000 =
      .ok (⟨100, 150, 0, 5, 100, 110, 0, 0, 40⟩,
        ⟨0, 0, 0, 0, 0, 40, TroveStatus.closedByLiquidation⟩,
        ⟨1100000000, 1500000000, 3, 5, 200, 20, 0, 0, 0, 0, 0, 0, 0, 0, 0, 200, 150, 1⟩) := by
    rfl
  have hthm := liquidate_recovery_capped_offset _ _ _ _ _ _ _ _ _ 100 150 0 0
    (by norm_num) (by norm_num [ONE_HUNDERED_PERCENT]) (by norm_num)
    (by norm_num) (by rfl) (by norm_num) hok
  exact ⟨hok, hthm.1, hthm.2.2.2.2.2.1⟩

/-- C1 counterexample: with `mcr = 0.9e9` the pool is in recovery mode at
price 1e9, the Trove's reward-inclusive ICR is `0.95e9`, so
`MCR ≤ ICR < TCR = 1e9` and its whole debt (100) is at most the
Stability Pool's deposits (1000) — all the claim's hypotheses hold — yet
because `ICR ≤ 100%` wins the branch order, the liquidation redistributes
the full debt and offsets nothing, contradicting the claimed
`debt_to_offset = entire debt` and `debt_to_redistribute = 0`. -/
theorem liquidate_recovery_capped_offset_counterexample :
    check_recovery_mode
      ⟨900000000, 1200000000, 3, 5, 200, 30, 0, 0, 0, 0, 0, 0, 0, 0, 0, 200, 200, 2⟩
      1000000000 = .ok true ∧
    get_current_icr ⟨100, 95, 10, 0, 0, 0, TroveStatus.active⟩
      ⟨900000000, 1200000000, 3, 5, 200, 30, 0, 0, 0, 0, 0, 0, 0, 0, 0, 200, 200, 2⟩
      1000000000 = .ok 950000000 ∧
    (⟨900000000, 1200000000, 3, 5, 200, 30, 0, 0, 0, 0, 0, 0, 0, 0, 0, 200, 200, 2⟩ :
      PoolState).mcr ≤ 950000000 ∧
    get_tcr ⟨900000000, 1200000000, 3, 5, 200, 30, 0, 0, 0, 0, 0, 0, 0, 0, 0, 200, 200, 2⟩
      1000000000 = .ok 1000000000 ∧
    (950000000 : Nat) < 1000000000 ∧
    (100 : Nat) ≤ 1000 ∧
    get_totals_from_liquidate_recovery_mode 1000000000 1000
      ⟨100, 95, 10, 0, 0, 0, TroveStatus.active⟩
      ⟨900000000, 1200000000, 3, 5, 200, 30, 0, 0, 0, 0, 0, 0, 0, 0, 0, 200, 200, 2⟩ =
      .ok (⟨95, 100, 0, 5, 0, 0, 100, 95, 0⟩,
        ⟨0, 0, 0, 0, 0, 0, TroveStatus.closedByLiquidation⟩,
        ⟨900000000, 1200000000, 3, 5, 200, 20, 0, 0, 0, 0, 0, 0, 0, 0, 0, 200, 200, 1⟩) ∧
    (⟨95, 100, 0, 5, 0, 0, 100, 95, 0⟩ :
      LiquidationTotals).total_debt_to_redistribute = 100 ∧
    ¬ (⟨95, 100, 0, 5, 0, 0, 100, 95, 0⟩ :
      LiquidationTotals).total_debt_to_redistribute = 0 ∧
    (⟨95, 100, 0, 5, 0, 0, 100, 95, 0⟩ :
      LiquidationTotals).total_debt_to_offset = 0 := by
  refine ⟨by rfl, by rfl, by norm_num, by rfl, by norm_num, by norm_num,
    by rfl, rfl, by norm_num, rfl⟩


theorem get_totals_recovery_one_trove (price usv : Nat) (t : Trove)
    (p : PoolState) (w : LiquidationTotals × Trove × PoolState)
    (hsize : p.trove_size ≤ 1)
    (h : get_totals_from_liquidate_recovery_mode price usv t p = .ok w) :
    w = (ltDefault, t, p) := by
  have hlrm : ∀ tcr icr, liquidate_recovery_mode p t usv tcr icr price =
      .ok (lvDefault, t, p) := by
    intro tcr icr
    rw [liquidate_recovery_mode, if_pos hsize]
    rfl
  rw [get_totals_from_liquidate_recovery_mode] at h
  split at h
  · rw [pure_eq_ok] at h
    exact h
  · simp only [bind_eq_ok] at h
    obtain ⟨icr2, hicr2, h⟩ := h
    split at h
    · rw [pure_eq_ok] at h
      exact h
    · simp only [bind_eq_ok, pure_eq_ok] at h
      obtain ⟨ec, hec, ed, hed, tcr2, htcr2, lv, hlv, tot, htot, rfl⟩ := h
      rw [hlrm tcr2 icr2] at hlv
      injection hlv with hlv
      subst hlv
      have : add_liquidation_values ltDefault lvDefault = .ok ltDefault := by rfl
      rw [this] at htot
      injection htot with htot
      subst htot
      rfl

/-- C10: in recovery mode with at most one Trove in the system,
`liquidate_recovery_mode` returns the all-zero `LiquidationValues` with
the Trove and pool untouched, before examining the Trove; consequently a
`liquidateTrove` call made in recovery mode — whenever its totals
computation itself does not abort on an arithmetic panic — fails with
`LiquidateZeroDebt`: the sole remaining Trove cannot be liquidated in
recovery mode, whatever its ICR. -/
theorem liquidate_recovery_only_trove_zero (p : PoolState) (t : Trove)
    (usv tcr icr price : Nat) (hsize : p.trove_size ≤ 1) :
    liquidate_recovery_mode p t usv tcr icr price = .ok (lvDefault, t, p) ∧
    (∀ (sp : SPState) (es : EpochScale) (cvgt : Nat)
      (w : LiquidationTotals × Trove × PoolState),
      check_recovery_mode p price = .ok true →
      get_totals_from_liquidate_recovery_mode price sp.total_usv_deposits t p =
        .ok w →
      liquidate_trove_handler p t sp es price cvgt =
        .error .liquidateZeroDebt) := by
  constructor
  · rw [liquidate_recovery_mode, if_pos hsize]
    rfl
  · intro sp es cvgt w hrec htot
    have hw : w = (ltDefault, t, p) :=
      get_totals_recovery_one_trove _ _ _ _ _ hsize htot
    subst hw
    rw [liquidate_trove_handler, hrec]
    simp only [Bind.bind, Except.bind]
    rw [liquidate_totals, if_pos rfl, htot]
    rfl


/-- C10 witness: a deeply undercollateralized sole Trove (ICR 0.5e9) in
recovery mode: the liquidation values are all zero and the handler fails
with `LiquidateZeroDebt`. -/
theorem liquidate_recovery_only_trove_zero_witness :
    liquidate_recovery_mode
      ⟨1100000000, 1500000000, 3, 5, 200, 10, 0, 0, 0, 0, 0, 0, 0, 0, 0, 50, 100, 1⟩
      ⟨100, 50, 10, 0, 0, 0, TroveStatus.active⟩ 1000 500000000 500000000
      1000000000 =
      .ok (lvDefault, ⟨100, 50, 10, 0, 0, 0, TroveStatus.active⟩,
        ⟨1100000000, 1500000000, 3, 5, 200, 10, 0, 0, 0, 0, 0, 0, 0, 0, 0, 50, 100, 1⟩) ∧
    liquidate_trove_handler
      ⟨1100000000, 1500000000, 3, 5, 200, 10, 0, 0, 0, 0, 0, 0, 0, 0, 0, 50, 100, 1⟩
      ⟨100, 50, 10, 0, 0, 0, TroveStatus.active⟩
      ⟨0, 1000, 1000000000, 0, 0, 0, 0, 0⟩ ⟨0, 0⟩ 1000000000 0 =
      .error .liquidateZeroDebt := by
  have h := liquidate_recovery_only_trove_zero
    ⟨1100000000, 1500000000, 3, 5, 200, 10, 0, 0, 0, 0, 0, 0, 0, 0, 0, 50, 100, 1⟩
    ⟨100, 50, 10, 0, 0, 0, TroveStatus.active⟩ 1000 500000000 500000000
    1000000000 (by norm_num)
  exact ⟨h.1, h.2 ⟨0, 1000, 1000000000, 0, 0, 0, 0, 0⟩ ⟨0, 0⟩ 0
    (ltDefault, ⟨100, 50, 10, 0, 0, 0, TroveStatus.active⟩,
      ⟨1100000000, 1500000000, 3, 5, 200, 10, 0, 0, 0, 0, 0, 0, 0, 0, 0, 50, 100, 1⟩)
    (by rfl) (by rfl)⟩


/-- C7: a `liquidateTrove` call whose accumulated
`total_debt_in_sequence` is zero fails with the distinct
`LiquidateZeroDebt` error (and therefore commits no state change) rather
than succeeding as a no-op; in particular, in normal mode a candidate
whose ICR is not below MCR contributes zero totals. -/
theorem liquidate_zero_debt_rejected (p : PoolState) (t : Trove) (sp : SPState)
    (es : EpochScale) (price cvgt : Nat) (rcv : Bool)
    (tot : LiquidationTotals) (t1 : Trove) (p1 : PoolState)
    (hrec : check_recovery_mode p price = .ok rcv)
    (htot : liquidate_totals price sp.total_usv_deposits rcv t p =
      .ok (tot, t1, p1))
    (hz : tot.total_debt_in_sequence = 0) :
    liquidate_trove_handler p t sp es price cvgt = .error .liquidateZeroDebt ∧
    (∀ icr, get_current_icr t p price = .ok icr → p.mcr ≤ icr →
      get_totals_from_liquidate_normal_mode price sp.total_usv_deposits t p =
        .ok (ltDefault, t, p)) := by
  constructor
  · have hcond : ¬ 0 < (tot, t1, p1).1.total_debt_in_sequence := by simp [hz]
    rw [liquidate_trove_handler, hrec]
    simp only [Bind.bind, Except.bind]
    rw [htot]
    exact if_neg hcond
  · intro icr hicr hge
    rw [get_totals_from_liquidate_normal_mode, hicr]
    simp only [Bind.bind, Except.bind]
    rw [if_neg (by omega)]
    rfl


/-- C7 witness: a normal-mode call on a healthy Trove (ICR 3e9 ≥ MCR):
totals stay zero and the handler fails with `LiquidateZeroDebt`. -/
theorem liquidate_zero_debt_rejected_witness :
    liquidate_trove_handler
      ⟨1100000000, 1100000000, 3, 5, 200, 10, 0, 0, 0, 0, 0, 0, 0, 0, 0, 300, 100, 2⟩
      ⟨100, 300, 10, 0, 0, 0, TroveStatus.active⟩
      ⟨0, 1000, 1000000000, 0, 0, 0, 0, 0⟩ ⟨0, 0⟩ 1000000000 0 =
      .error .liquidateZeroDebt ∧
    get_totals_from_liquidate_normal_mode 1000000000 1000
      ⟨100, 300, 10, 0, 0, 0, TroveStatus.active⟩
      ⟨1100000000, 1100000000, 3, 5, 200, 10, 0, 0, 0, 0, 0, 0, 0, 0, 0, 300, 100, 2⟩ =
      .ok (ltDefault, ⟨100, 300, 10, 0, 0, 0, TroveStatus.active⟩,
        ⟨1100000000, 1100000000, 3, 5, 200, 10, 0, 0, 0, 0, 0, 0, 0, 0, 0, 300, 100, 2⟩) := by
  have h := liquidate_zero_debt_rejected
    ⟨1100000000, 1100000000, 3, 5, 200, 10, 0, 0, 0, 0, 0, 0, 0, 0, 0, 300, 100, 2⟩
    ⟨100, 300, 10, 0, 0, 0, TroveStatus.active⟩
    ⟨0, 1000, 1000000000, 0, 0, 0, 0, 0⟩ ⟨0, 0⟩ 1000000000 0 false
    ltDefault ⟨100, 300, 10, 0, 0, 0, TroveStatus.active⟩
    ⟨1100000000, 1100000000, 3, 5, 200, 10, 0, 0, 0, 0, 0, 0, 0, 0, 0, 300, 100, 2⟩
    (by rfl) (by rfl) rfl
  exact ⟨h.1, h.2 3000000000 (by rfl) (by norm_num)⟩


theorem update_stake_eq_ok {t : Trove} {p : PoolState} {out : Trove × PoolState} :
    update_stake_and_total_stakes t p = .ok out ↔
      ∃ ns, compute_new_stake t p t.coll = .ok ns ∧
        t.stake ≤ p.total_stakes ∧
        p.total_stakes - t.stake + ns < U64L ∧
        out = ({ t with stake := ns },
          { p with total_stakes := p.total_stakes - t.stake + ns }) := by
  unfold update_stake_and_total_stakes
  simp only [bind_eq_ok, pure_eq_ok, chAdd64_eq_ok, chSub_eq_ok]
  constructor
  · rintro ⟨ns, hns, _, ⟨rfl, hb1⟩, _, ⟨rfl, hb2⟩, rfl⟩
    exact ⟨ns, hns, hb1, hb2, rfl⟩
  · rintro ⟨ns, hns, hb1, hb2, rfl⟩
    exact ⟨ns, hns, _, ⟨rfl, hb1⟩, _, ⟨rfl, hb2⟩, rfl⟩


/-- C5: each Trove processed during a redemption walk redeems the lot
`min(remaining, debt - gas_compensation)` converted at the current price;
if the remaining debt equals exactly the gas compensation the Trove is
closed (`ClosedByRedemption`, stake removed) with its whole remaining
collateral accounted as owner-claimable surplus; if the remaining net
debt would fall below `min_net_debt` the partial redemption is cancelled
with the Trove and pool untouched — and the whole walk stops there;
otherwise debt and collateral shrink in place and the stake is
recomputed (the walk then re-inserts the Trove at its recomputed NICR). -/
theorem redeem_collateral_from_trove_spec (t : Trove) (max_usv price : Nat)
    (p : PoolState) (sr : SingleRedemptionValues) (t' : Trove) (p' : PoolState)
    (h : redeem_collateral_from_trove t max_usv price p = .ok (sr, t', p')) :
    (sr.usv_lot = min max_usv (t.debt - p.gas_compensation) ∧
     p.gas_compensation ≤ t.debt ∧
     sr.coll_lot = sr.usv_lot * DECIMAL_PRECISION / price ∧
     (t.debt - sr.usv_lot = p.gas_compensation →
       t'.status = TroveStatus.closedByRedemption ∧ t'.stake = 0 ∧
       t'.surplus_balance = t.surplus_balance + (t.coll - sr.coll_lot) ∧
       p'.total_surplus = p.total_surplus + (t.coll - sr.coll_lot) ∧
       sr.usv_gas_to_burn = p.gas_compensation ∧ sr.canceledPart = false) ∧
     (t.debt - sr.usv_lot ≠ p.gas_compensation →
       (t.debt - sr.usv_lot - p.gas_compensation < p.min_net_debt →
         sr.canceledPart = true ∧ t' = t ∧ p' = p) ∧
       (¬ t.debt - sr.usv_lot - p.gas_compensation < p.min_net_debt →
         sr.canceledPart = false ∧
         t'.debt = t.debt - sr.usv_lot ∧
         t'.coll = t.coll - sr.coll_lot ∧
         t'.status = t.status ∧
         compute_new_stake t' p t'.coll = .ok t'.stake ∧
         p'.total_stakes = p.total_stakes - t.stake + t'.stake))) ∧
    (∀ (tot : RedTotals) (ts : List Trove) (remaining : Nat) (p0 : PoolState)
      (t0 : Trove), remaining ≠ 0 →
      apply_pending_reward p0 t0 = .ok (p, t) →
      redeem_collateral_from_trove t remaining price p = .ok (sr, t', p') →
      sr.canceledPart = true →
      redeemWalk price p0 remaining tot (t0 :: ts) =
        .ok (p', remaining, tot, t0 :: ts)) := by
  constructor
  · rw [redeem_collateral_from_trove] at h
    simp only [bind_eq_ok, pure_eq_ok, chSub_eq_ok, chMul128_eq_ok,
      chDiv_eq_ok, tryU64_eq_ok] at h
    obtain ⟨_, ⟨rfl, hg⟩, _, ⟨rfl, hm1⟩, _, ⟨rfl, hpr⟩, _, ⟨rfl, hb1⟩,
      _, ⟨rfl, hd1⟩, _, ⟨rfl, hc1⟩, h⟩ := h
    split at h
    · rename_i hclose
      simp only [bind_eq_ok, pure_eq_ok, remove_stake_eq_ok, close_trove_eq_ok,
        redeem_close_trove, decrease_active_debt, decrease_active_coll,
        increase_total_surplus, account_surplus_eq_ok, chSub_eq_ok,
        chAdd64_eq_ok] at h
      obtain ⟨_, ⟨hs1, rfl⟩, _, ⟨hc2, hc3, rfl⟩, _,
        ⟨_, ⟨_, ⟨rfl, hd2⟩, rfl⟩, _, ⟨hsu, rfl⟩, _, ⟨_, ⟨rfl, hd3⟩, rfl⟩,
          _, ⟨_, ⟨rfl, hd4⟩, rfl⟩, rfl⟩, hfin⟩ := h
      injection hfin with hsr hfin
      injection hfin with ht hp
      subst hsr
      subst ht
      subst hp
      exact ⟨rfl, hg, rfl, fun _ => ⟨rfl, rfl, rfl, rfl, rfl, rfl⟩,
        fun hne => absurd hclose hne⟩
    · rename_i hclose
      simp only [bind_eq_ok, pure_eq_ok, get_net_debt, chSub_eq_ok] at h
      obtain ⟨_, ⟨rfl, hge2⟩, h⟩ := h
      split at h
      · rename_i hmin
        rw [pure_eq_ok] at h
        injection h with hsr h
        injection h with ht hp
        subst hsr
        subst ht
        subst hp
        exact ⟨rfl, hg, rfl, fun heq => absurd heq hclose,
          fun _ => ⟨fun _ => ⟨rfl, rfl, rfl⟩, fun hnm => absurd hmin hnm⟩⟩
      · rename_i hmin
        simp only [bind_eq_ok, pure_eq_ok, update_stake_eq_ok] at h
        obtain ⟨_, ⟨ns, hns, hb2, hb3, rfl⟩, hfin⟩ := h
        injection hfin with hsr hfin
        injection hfin with ht hp
        subst hsr
        subst ht
        subst hp
        exact ⟨rfl, hg, rfl, fun heq => absurd heq hclose,
          fun _ => ⟨fun hm2 => absurd hm2 hmin,
            fun _ => ⟨rfl, rfl, rfl, rfl, hns, rfl⟩⟩⟩
  · intro tot ts remaining p0 t0 hrem hap hred hcan
    simp only [redeemWalk]
    rw [if_neg hrem, hap]
    simp only [Bind.bind, Except.bind]
    rw [hred]
    exact if_pos (show (sr, t', p').1.canceledPart = true from hcan)


/-- C5 witness: a partial redemption of 50 USV from a 100-debt,
200-collateral Trove at price 1.0: lot `min(50, 95) = 50`, debt and
collateral shrink in place, the stake is recomputed. -/
theorem redeem_collateral_from_trove_spec_witness :
    redeem_collateral_from_trove ⟨100, 200, 10, 0, 0, 0, TroveStatus.active⟩ 50
      1000000000
      ⟨1100000000, 1500000000, 10, 5, 200, 30, 0, 0, 0, 0, 0, 0, 0, 0, 0, 300, 150, 2⟩ =
      .ok (⟨50, 50, false, 0⟩, ⟨50, 150, 150, 0, 0, 0, TroveStatus.active⟩,
        ⟨1100000000, 1500000000, 10, 5, 200, 170, 0, 0, 0, 0, 0, 0, 0, 0, 0, 300, 150, 2⟩) ∧
    (⟨50, 50, false, 0⟩ : SingleRedemptionValues).usv_lot = min 50 (100 - 5) := by
  have hok : redeem_collateral_from_trove ⟨100, 200, 10, 0, 0, 0, TroveStatus.active⟩
      50 1000000000
      ⟨1100000000, 1500000000, 10, 5, 200, 30, 0, 0, 0, 0, 0, 0, 0, 0, 0, 300, 150, 2⟩ =
      .ok (⟨50, 50, false, 0⟩, ⟨50, 150, 150, 0, 0, 0, TroveStatus.active⟩,
        ⟨1100000000, 1500000000, 10, 5, 200, 170, 0, 0, 0, 0, 0, 0, 0, 0, 0, 300, 150, 2⟩) := by
    rfl
  exact ⟨hok, (redeem_collateral_from_trove_spec _ _ _ _ _ _ _ hok).1.1⟩

end Convergent
